import Mathlib

/-!
# Verification of the Fruit-Detection analysis core

A shallow embedding, over exact rational arithmetic, of the analysis core of
`advance_Fruit-Detection.py` (and, where a claim cites it, the corresponding
function of `goodUI.py`):

* the local computer-vision detectors (`detect_brown_rot_enhanced`,
  `detect_black_spots_enhanced`, `analyze_color_uniformity`,
  `analyze_texture_quality`, `analyze_fruit_shape`,
  `calculate_freshness_score_enhanced`) and their aggregator
  `perform_local_analysis`;
* the result-fusion step `combine_analysis_results`;
* the keyword fallback classifier `create_fallback_analysis`;
* the defect-overlay renderer `create_enhanced_analysis_overlay`.

Modelling conventions.  Images are rectangular grids of `ℕ`-valued channel
samples; the OpenCV colour-space conversions (`cv2.cvtColor`) are not
interpreted, so an image carries its HSV / LAB / BGR / grayscale channel data
as uninterpreted functions, which only strengthens universally quantified
statements.  Python float arithmetic is modelled exactly over `ℚ`, with
Python's `round` (round half to even) modelled by `rhe`.  Opaque OpenCV
library primitives whose outputs the code consumes only through a small
contract (`np.sqrt`/`np.std`'s square root, `math.pi`, `cv2.Canny`'s edge
mask, `cv2.findContours`' contour measurements) are taken as parameters
constrained by exactly that contract; everything else (thresholding, `inRange`
masks, morphology, connected components, means, variances, convolutions,
branching and score arithmetic) is translated directly from the source.
-/

namespace FruitDetection

/-- Python's `round` to the nearest integer, ties to even (round-half-even),
over exact rationals.  Models `round(x)` on our rational model of floats. -/
def rhe (q : ℚ) : ℤ :=
  if q - ⌊q⌋ < 1/2 then ⌊q⌋
  else if 1/2 < q - ⌊q⌋ then ⌊q⌋ + 1
  else if ⌊q⌋ % 2 = 0 then ⌊q⌋ else ⌊q⌋ + 1

/-- Python's `round(x, 2)`. -/
def round2 (q : ℚ) : ℚ := (rhe (q * 100) : ℚ) / 100

/-- Python's `round(x, 1)`. -/
def round1 (q : ℚ) : ℚ := (rhe (q * 10) : ℚ) / 10

theorem floor_le_rhe (q : ℚ) : ⌊q⌋ ≤ rhe q := by
  unfold rhe; split_ifs <;> omega

theorem rhe_le_floor_add_one (q : ℚ) : rhe q ≤ ⌊q⌋ + 1 := by
  unfold rhe; split_ifs <;> omega

theorem rhe_mono {a b : ℚ} (hab : a ≤ b) : rhe a ≤ rhe b := by
  rcases lt_or_eq_of_le (Int.floor_le_floor hab) with hf | hf
  · calc rhe a ≤ ⌊a⌋ + 1 := rhe_le_floor_add_one a
      _ ≤ ⌊b⌋ := by omega
      _ ≤ rhe b := floor_le_rhe b
  · unfold rhe
    rw [hf]
    have h1 : a - ⌊b⌋ ≤ b - ⌊b⌋ := by linarith
    split_ifs <;> first | omega | linarith

theorem rhe_intCast (n : ℤ) : rhe (n : ℚ) = n := by
  unfold rhe
  rw [Int.floor_intCast]
  have : (n : ℚ) - (n : ℚ) = 0 := by ring
  rw [this]
  norm_num

theorem rhe_le_add_half (q : ℚ) : (rhe q : ℚ) ≤ q + 1/2 := by
  have hfloor : (⌊q⌋ : ℚ) ≤ q := Int.floor_le q
  unfold rhe
  split_ifs with h1 h2 h3 <;> push_cast <;> linarith

theorem sub_half_le_rhe (q : ℚ) : q - 1/2 ≤ (rhe q : ℚ) := by
  have hfloor : q < (⌊q⌋ : ℚ) + 1 := Int.lt_floor_add_one q
  unfold rhe
  split_ifs with h1 h2 h3 <;> push_cast <;> linarith

theorem round2_mono {a b : ℚ} (hab : a ≤ b) : round2 a ≤ round2 b := by
  unfold round2
  have h := rhe_mono (a := a * 100) (b := b * 100) (by linarith)
  have : ((rhe (a * 100) : ℤ) : ℚ) ≤ ((rhe (b * 100) : ℤ) : ℚ) := by exact_mod_cast h
  linarith

theorem round1_mono {a b : ℚ} (hab : a ≤ b) : round1 a ≤ round1 b := by
  unfold round1
  have h := rhe_mono (a := a * 10) (b := b * 10) (by linarith)
  have : ((rhe (a * 10) : ℤ) : ℚ) ≤ ((rhe (b * 10) : ℤ) : ℚ) := by exact_mod_cast h
  linarith

theorem round2_intCast (n : ℤ) : round2 (n : ℚ) = n := by
  unfold round2
  rw [show ((n : ℚ) * 100) = (((n * 100 : ℤ) : ℚ)) by push_cast; ring, rhe_intCast]
  push_cast
  ring

theorem round1_intCast (n : ℤ) : round1 (n : ℚ) = n := by
  unfold round1
  rw [show ((n : ℚ) * 10) = (((n * 10 : ℤ) : ℚ)) by push_cast; ring, rhe_intCast]
  push_cast
  ring

theorem round2_nonneg {q : ℚ} (hq : 0 ≤ q) : 0 ≤ round2 q := by
  have h0 : round2 (((0 : ℤ) : ℚ)) = ((0 : ℤ) : ℚ) := round2_intCast 0
  have := round2_mono (a := ((0 : ℤ) : ℚ)) (b := q) (by exact_mod_cast hq)
  rw [h0] at this
  exact_mod_cast this

theorem round2_le_100 {q : ℚ} (hq : q ≤ 100) : round2 q ≤ 100 := by
  have h0 : round2 (((100 : ℤ) : ℚ)) = ((100 : ℤ) : ℚ) := round2_intCast 100
  have := round2_mono (a := q) (b := ((100 : ℤ) : ℚ)) (by exact_mod_cast hq)
  rw [h0] at this
  exact_mod_cast this

theorem round1_le_add (q : ℚ) : round1 q ≤ q + 1/20 := by
  unfold round1
  have := rhe_le_add_half (q * 10)
  linarith

theorem sub_le_round1 (q : ℚ) : q - 1/20 ≤ round1 q := by
  unfold round1
  have := sub_half_le_rhe (q * 10)
  linarith

/-! ## Image grids, masks and morphology -/

/-- A pixel position `(row, col)`. -/
abbrev Pix := ℕ × ℕ

/-- The set of pixel positions of an `h × w` image. -/
def grid (h w : ℕ) : Finset Pix := Finset.range h ×ˢ Finset.range w

theorem mem_grid {h w : ℕ} {p : Pix} : p ∈ grid h w ↔ p.1 < h ∧ p.2 < w := by
  unfold grid
  simp [Finset.mem_product]

theorem card_grid (h w : ℕ) : (grid h w).card = h * w := by
  unfold grid
  simp [Finset.card_product]

/-- `cv2.getStructuringElement(cv2.MORPH_ELLIPSE, (3,3))`: the 3×3 cross. -/
def ellipse3 : List (ℤ × ℤ) := [(-1, 0), (0, -1), (0, 0), (0, 1), (1, 0)]

/-- `cv2.getStructuringElement(cv2.MORPH_ELLIPSE, (5,5))`: full rows at
vertical offsets −1, 0, 1 and the single centre column at offsets ±2. -/
def ellipse5 : List (ℤ × ℤ) :=
  [(-2, 0),
   (-1, -2), (-1, -1), (-1, 0), (-1, 1), (-1, 2),
   (0, -2), (0, -1), (0, 0), (0, 1), (0, 2),
   (1, -2), (1, -1), (1, 0), (1, 1), (1, 2),
   (2, 0)]

/-- Whether an integer coordinate pair lies inside the `h × w` grid. -/
def inGridZ (h w : ℕ) (p : ℤ × ℤ) : Prop :=
  0 ≤ p.1 ∧ p.1 < h ∧ 0 ≤ p.2 ∧ p.2 < w

instance (h w : ℕ) (p : ℤ × ℤ) : Decidable (inGridZ h w p) := by
  unfold inGridZ; infer_instance

/-- Shift a pixel position by an integer kernel offset. -/
def shiftBy (p : Pix) (d : ℤ × ℤ) : ℤ × ℤ := ((p.1 : ℤ) + d.1, (p.2 : ℤ) + d.2)

/-- Clamp an in-grid integer coordinate pair back to `Pix`. -/
def toPix (p : ℤ × ℤ) : Pix := (p.1.toNat, p.2.toNat)

/-- `cv2.erode` with structuring element `K`: a pixel survives iff every
kernel-offset neighbour that lies inside the image belongs to the mask
(out-of-image samples are treated as foreground, matching OpenCV's default
border value for erosion). -/
def erodeM (h w : ℕ) (K : List (ℤ × ℤ)) (M : Finset Pix) : Finset Pix :=
  (grid h w).filter fun p =>
    ∀ d ∈ K, ¬ inGridZ h w (shiftBy p d) ∨ toPix (shiftBy p d) ∈ M

/-- `cv2.dilate` with structuring element `K`: a pixel is set iff some
kernel-offset neighbour inside the image belongs to the mask. -/
def dilateM (h w : ℕ) (K : List (ℤ × ℤ)) (M : Finset Pix) : Finset Pix :=
  (grid h w).filter fun p =>
    ∃ d ∈ K, inGridZ h w (shiftBy p d) ∧ toPix (shiftBy p d) ∈ M

/-- `cv2.morphologyEx(..., cv2.MORPH_OPEN, K)`: erosion followed by dilation. -/
def openM (h w : ℕ) (K : List (ℤ × ℤ)) (M : Finset Pix) : Finset Pix :=
  dilateM h w K (erodeM h w K M)

/-- `cv2.morphologyEx(..., cv2.MORPH_CLOSE, K)`: dilation followed by erosion. -/
def closeM (h w : ℕ) (K : List (ℤ × ℤ)) (M : Finset Pix) : Finset Pix :=
  erodeM h w K (dilateM h w K M)

theorem erodeM_subset_grid (h w : ℕ) (K : List (ℤ × ℤ)) (M : Finset Pix) :
    erodeM h w K M ⊆ grid h w := Finset.filter_subset _ _

theorem dilateM_subset_grid (h w : ℕ) (K : List (ℤ × ℤ)) (M : Finset Pix) :
    dilateM h w K M ⊆ grid h w := Finset.filter_subset _ _

theorem erodeM_mono (h w : ℕ) (K : List (ℤ × ℤ)) {M N : Finset Pix}
    (hMN : M ⊆ N) : erodeM h w K M ⊆ erodeM h w K N := by
  intro p hp
  simp only [erodeM, Finset.mem_filter] at hp ⊢
  refine ⟨hp.1, fun d hd => ?_⟩
  rcases hp.2 d hd with h | h
  · exact Or.inl h
  · exact Or.inr (hMN h)

theorem dilateM_mono (h w : ℕ) (K : List (ℤ × ℤ)) {M N : Finset Pix}
    (hMN : M ⊆ N) : dilateM h w K M ⊆ dilateM h w K N := by
  intro p hp
  simp only [dilateM, Finset.mem_filter] at hp ⊢
  obtain ⟨hpg, d, hd, hin, hmem⟩ := hp
  exact ⟨hpg, d, hd, hin, hMN hmem⟩

theorem openM_mono (h w : ℕ) (K : List (ℤ × ℤ)) {M N : Finset Pix}
    (hMN : M ⊆ N) : openM h w K M ⊆ openM h w K N :=
  dilateM_mono h w K (erodeM_mono h w K hMN)

/-! ## Connected components and the minimum-area filter

`cv2.findContours(..., cv2.RETR_EXTERNAL, ...)` followed by `contourArea`
filtering and filled `drawContours` is modelled as: decompose the mask into
its 8-connected components and keep exactly the pixels of the components of
more than 20 pixels (the polygonal `contourArea` of a filled component is
modelled by the component's pixel count). -/

/-- 8-neighbourhood adjacency (Chebyshev distance ≤ 1, reflexive). -/
def adj8 (p q : Pix) : Prop :=
  p.1 ≤ q.1 + 1 ∧ q.1 ≤ p.1 + 1 ∧ p.2 ≤ q.2 + 1 ∧ q.2 ≤ p.2 + 1

instance (p q : Pix) : Decidable (adj8 p q) := by
  unfold adj8; infer_instance

/-- One step of region growing inside mask `M` from seed set `S`. -/
def growStep (M S : Finset Pix) : Finset Pix :=
  M.filter fun p => ∃ q ∈ S, adj8 p q

/-- The 8-connected component of `p` inside `M ⊆ grid h w`, computed by
`h * w` region-growing steps (enough to reach a fixpoint on an `h × w`
image). -/
def component (h w : ℕ) (M : Finset Pix) (p : Pix) : Finset Pix :=
  (growStep M)^[h * w] ({p} ∩ M)

/-- The pixels of `M` whose 8-connected component has more than 20 pixels:
the `area > 20` minimum-area filter of `detect_black_spots_enhanced`. -/
def significantM (h w : ℕ) (M : Finset Pix) : Finset Pix :=
  M.filter fun p => 20 < (component h w M p).card

theorem growStep_mono {M N S T : Finset Pix} (hMN : M ⊆ N) (hST : S ⊆ T) :
    growStep M S ⊆ growStep N T := by
  intro p hp
  simp only [growStep, Finset.mem_filter] at hp ⊢
  obtain ⟨hpM, q, hq, hadj⟩ := hp
  exact ⟨hMN hpM, q, hST hq, hadj⟩

theorem iterate_growStep_mono (n : ℕ) {M N S T : Finset Pix}
    (hMN : M ⊆ N) (hST : S ⊆ T) :
    (growStep M)^[n] S ⊆ (growStep N)^[n] T := by
  induction n generalizing S T with
  | zero => simpa using hST
  | succ k ih =>
      rw [Function.iterate_succ_apply, Function.iterate_succ_apply]
      exact ih (growStep_mono hMN hST)

theorem component_mono (h w : ℕ) {M N : Finset Pix} (hMN : M ⊆ N) (p : Pix) :
    component h w M p ⊆ component h w N p :=
  iterate_growStep_mono (h * w) hMN
    (Finset.inter_subset_inter (Finset.Subset.refl _) hMN)

theorem significantM_mono (h w : ℕ) {M N : Finset Pix} (hMN : M ⊆ N) :
    significantM h w M ⊆ significantM h w N := by
  intro p hp
  simp only [significantM, Finset.mem_filter] at hp ⊢
  refine ⟨hMN hp.1, lt_of_lt_of_le hp.2 ?_⟩
  exact Finset.card_le_card (component_mono h w hMN p)

theorem significantM_subset (h w : ℕ) (M : Finset Pix) :
    significantM h w M ⊆ M := Finset.filter_subset _ _

/-! ## The two defect detectors -/

/-- `(pixels / total_pixels) * 100` followed by `round(·, 2)`: the percentage
computation shared by both detectors on an `h × w` image. -/
def pixelPercentage (h w : ℕ) (n : ℕ) : ℚ :=
  round2 ((n : ℚ) / ((h * w : ℕ) : ℚ) * 100)

theorem pixelPercentage_nonneg (h w n : ℕ) : 0 ≤ pixelPercentage h w n := by
  unfold pixelPercentage
  apply round2_nonneg
  positivity

theorem pixelPercentage_le_100 {h w n : ℕ} (hn : n ≤ h * w) (hpos : 0 < h * w) :
    pixelPercentage h w n ≤ 100 := by
  unfold pixelPercentage
  apply round2_le_100
  have htot : (0 : ℚ) < ((h * w : ℕ) : ℚ) := by exact_mod_cast hpos
  have hle : (n : ℚ) ≤ ((h * w : ℕ) : ℚ) := by exact_mod_cast hn
  have h1 : (n : ℚ) / ((h * w : ℕ) : ℚ) ≤ 1 := by
    rw [div_le_one htot]; exact hle
  linarith

theorem pixelPercentage_mono (h w : ℕ) {m n : ℕ} (hmn : m ≤ n) :
    pixelPercentage h w m ≤ pixelPercentage h w n := by
  unfold pixelPercentage
  apply round2_mono
  rcases Nat.eq_zero_or_pos (h * w) with h0 | hpos
  · rw [h0]; norm_num
  · have htot : (0 : ℚ) < ((h * w : ℕ) : ℚ) := by exact_mod_cast hpos
    have hc : (m : ℚ) ≤ (n : ℚ) := by exact_mod_cast hmn
    gcongr

/-- `cv2.inRange(hsv, [8,50,20], [20,255,200])` of `detect_brown_rot_enhanced`
(the vacuous lower channel bound `0 ≤ ·` of `inRange` is omitted on `ℕ`). -/
def brownMaskHSV (h w : ℕ) (hue sat vch : ℕ → ℕ → ℕ) : Finset Pix :=
  (grid h w).filter fun p =>
    8 ≤ hue p.1 p.2 ∧ hue p.1 p.2 ≤ 20 ∧
    50 ≤ sat p.1 p.2 ∧ sat p.1 p.2 ≤ 255 ∧
    20 ≤ vch p.1 p.2 ∧ vch p.1 p.2 ≤ 200

/-- The LAB-space brown mask `(L < 150) & (5 < a < 30) & (10 < b < 40)` of
`detect_brown_rot_enhanced`. -/
def brownMaskLAB (h w : ℕ) (lL lA lB : ℕ → ℕ → ℕ) : Finset Pix :=
  (grid h w).filter fun p =>
    lL p.1 p.2 < 150 ∧
    5 < lA p.1 p.2 ∧ lA p.1 p.2 < 30 ∧
    10 < lB p.1 p.2 ∧ lB p.1 p.2 < 40

/-- The final mask of `detect_brown_rot_enhanced`: HSV/LAB union, then
morphological open and close with the 5×5 ellipse kernel. -/
def brownDetectorMask (h w : ℕ) (hue sat vch lL lA lB : ℕ → ℕ → ℕ) :
    Finset Pix :=
  closeM h w ellipse5
    (openM h w ellipse5 (brownMaskHSV h w hue sat vch ∪ brownMaskLAB h w lL lA lB))

/-- `detect_brown_rot_enhanced(hsv_image, lab_image)`: the rounded brown-rot
pixel percentage. -/
def detect_brown_rot_enhanced (h w : ℕ) (hue sat vch lL lA lB : ℕ → ℕ → ℕ) : ℚ :=
  pixelPercentage h w (brownDetectorMask h w hue sat vch lL lA lB).card

/-- `cv2.inRange(hsv, [0,0,0], [180,255,50])` of `detect_black_spots_enhanced`:
the HSV very-dark band (the `0 ≤ ·` lower bounds are vacuous on `ℕ`). -/
def blackMaskHSV (h w : ℕ) (hue sat vch : ℕ → ℕ → ℕ) : Finset Pix :=
  (grid h w).filter fun p =>
    hue p.1 p.2 ≤ 180 ∧ sat p.1 p.2 ≤ 255 ∧ vch p.1 p.2 ≤ 50

/-- `cv2.threshold(gray, 30, 255, cv2.THRESH_BINARY_INV)`: pixels of
luminance at most 30. -/
def blackMaskGray (h w : ℕ) (gray : ℕ → ℕ → ℕ) : Finset Pix :=
  (grid h w).filter fun p => gray p.1 p.2 ≤ 30

/-- The raw combined dark mask of `detect_black_spots_enhanced`
(`cv2.bitwise_and` of the HSV and grayscale masks, before morphology). -/
def blackCombinedMask (h w : ℕ) (hue sat vch gray : ℕ → ℕ → ℕ) : Finset Pix :=
  blackMaskHSV h w hue sat vch ∩ blackMaskGray h w gray

/-- The final mask of `detect_black_spots_enhanced`: combined dark mask,
morphological open with the 3×3 ellipse kernel, then the minimum-area
component filter. -/
def blackDetectorMask (h w : ℕ) (hue sat vch gray : ℕ → ℕ → ℕ) : Finset Pix :=
  significantM h w (openM h w ellipse3 (blackCombinedMask h w hue sat vch gray))

/-- `detect_black_spots_enhanced(hsv_image, gray_image)`: the rounded
black-spot pixel percentage. -/
def detect_black_spots_enhanced (h w : ℕ) (hue sat vch gray : ℕ → ℕ → ℕ) : ℚ :=
  pixelPercentage h w (blackDetectorMask h w hue sat vch gray).card

theorem brownDetectorMask_subset_grid (h w : ℕ)
    (hue sat vch lL lA lB : ℕ → ℕ → ℕ) :
    brownDetectorMask h w hue sat vch lL lA lB ⊆ grid h w :=
  erodeM_subset_grid _ _ _ _

theorem blackDetectorMask_subset_grid (h w : ℕ) (hue sat vch gray : ℕ → ℕ → ℕ) :
    blackDetectorMask h w hue sat vch gray ⊆ grid h w :=
  (significantM_subset _ _ _).trans (dilateM_subset_grid _ _ _ _)

/-! ## Means, variances and convolutions -/

/-- `np.mean` of a rational-valued field over an `h × w` image
(division by zero pixels yields `0`, as `ℚ` division by zero is `0`). -/
def gmean (h w : ℕ) (f : Pix → ℚ) : ℚ :=
  (∑ p ∈ grid h w, f p) / ((h * w : ℕ) : ℚ)

/-- `np.var` (population variance) of a field over an `h × w` image. -/
def gvar (h w : ℕ) (f : Pix → ℚ) : ℚ :=
  gmean h w fun p => (f p - gmean h w f) ^ 2

theorem gmean_nonneg {h w : ℕ} {f : Pix → ℚ} (hf : ∀ p ∈ grid h w, 0 ≤ f p) :
    0 ≤ gmean h w f := by
  unfold gmean
  apply div_nonneg (Finset.sum_nonneg hf)
  positivity

theorem gvar_nonneg (h w : ℕ) (f : Pix → ℚ) : 0 ≤ gvar h w f := by
  unfold gvar
  apply gmean_nonneg
  intro p _
  positivity

/-- OpenCV `BORDER_REFLECT_101` index folding for a radius-1 neighbourhood
(with the degenerate length-1 axis clamped to index 0). -/
def borderIdx (n : ℕ) (i : ℤ) : ℕ :=
  (if i < 0 then min (-i) ((n : ℤ) - 1)
   else if (n : ℤ) ≤ i then max (2 * (n : ℤ) - 2 - i) 0
   else i).toNat

/-- Sample a `ℕ`-valued channel at integer coordinates with reflected
borders, as a rational. -/
def sampleAt (h w : ℕ) (f : ℕ → ℕ → ℕ) (r c : ℤ) : ℚ :=
  f (borderIdx h r) (borderIdx w c)

/-- A small convolution: each kernel entry is `(row offset, col offset,
weight)`; evaluated at one pixel with reflected borders. -/
def convAt (h w : ℕ) (ker : List (ℤ × ℤ × ℚ)) (f : ℕ → ℕ → ℕ) (p : Pix) : ℚ :=
  (ker.map fun e => e.2.2 * sampleAt h w f ((p.1 : ℤ) + e.1) ((p.2 : ℤ) + e.2.1)).sum

/-- `cv2.Laplacian(gray, cv2.CV_64F)` (aperture 1): kernel `[[0,1,0],[1,-4,1],[0,1,0]]`. -/
def lapKernel : List (ℤ × ℤ × ℚ) :=
  [(-1, 0, 1), (0, -1, 1), (0, 0, -4), (0, 1, 1), (1, 0, 1)]

/-- `cv2.Sobel(gray, cv2.CV_32F, 1, 0, ksize=3)`: horizontal derivative. -/
def sobelXKernel : List (ℤ × ℤ × ℚ) :=
  [(-1, -1, -1), (-1, 1, 1), (0, -1, -2), (0, 1, 2), (1, -1, -1), (1, 1, 1)]

/-- `cv2.Sobel(gray, cv2.CV_32F, 0, 1, ksize=3)`: vertical derivative. -/
def sobelYKernel : List (ℤ × ℤ × ℚ) :=
  [(-1, -1, -1), (-1, 0, -2), (-1, 1, -1), (1, -1, 1), (1, 0, 2), (1, 1, 1)]

/-- The simplified local-binary-pattern kernel
`[[-1,-1,-1],[-1,8,-1],[-1,-1,-1]]` of `analyze_texture_quality`. -/
def lbpKernel : List (ℤ × ℤ × ℚ) :=
  [(-1, -1, -1), (-1, 0, -1), (-1, 1, -1),
   (0, -1, -1), (0, 0, 8), (0, 1, -1),
   (1, -1, -1), (1, 0, -1), (1, 1, -1)]

/-! ## The remaining local analyzers

`np.std`'s and `np.sqrt`'s square root is taken as a parameter
`sqrtQ : ℚ → ℚ` constrained to be nonnegative on nonnegative inputs (the
contract of the library function); `π` as a parameter `piQ`; `cv2.Canny`'s
edge mask and `cv2.findContours`' per-contour measurements likewise. -/

/-- `np.std` of a channel over an `h × w` image, given the library square
root. -/
def gstd (sqrtQ : ℚ → ℚ) (h w : ℕ) (f : ℕ → ℕ → ℕ) : ℚ :=
  sqrtQ (gvar h w fun p => ((f p.1 p.2 : ℕ) : ℚ))

/-- `analyze_color_uniformity(image)`: the weighted LAB-channel standard
deviation `L*0.5 + a*0.25 + b*0.25`, rounded to 2 decimals. -/
def analyze_color_uniformity (sqrtQ : ℚ → ℚ) (h w : ℕ)
    (lL lA lB : ℕ → ℕ → ℕ) : ℚ :=
  round2 (gstd sqrtQ h w lL * (1/2) + gstd sqrtQ h w lA * (1/4) +
          gstd sqrtQ h w lB * (1/4))

/-- `analyze_texture_quality(image)`: Laplacian variance, mean Sobel gradient
magnitude and mean absolute LBP response, blended `0.3/0.3/0.4`, capped at
100 and rounded to 2 decimals. -/
def analyze_texture_quality (sqrtQ : ℚ → ℚ) (h w : ℕ) (gray : ℕ → ℕ → ℕ) : ℚ :=
  let t1 := gvar h w (convAt h w lapKernel gray)
  let t2 := gmean h w fun p =>
    sqrtQ ((convAt h w sobelXKernel gray p) ^ 2 + (convAt h w sobelYKernel gray p) ^ 2)
  let t3 := gmean h w fun p => |convAt h w lbpKernel gray p|
  round2 (min 100 (t1 * (3/10) + t2 * (3/10) + t3 * (2/5)))

/-- The measurements `cv2.contourArea(c)`, `cv2.arcLength(c, True)` and
`cv2.contourArea(cv2.convexHull(c))` of one contour found by
`cv2.findContours` on the adaptive-threshold edge map. -/
structure ContourData where
  area : ℚ
  perimeter : ℚ
  hullArea : ℚ

/-- `max(contours, key=cv2.contourArea)`: scan left to right, replacing the
current best only on a strictly larger area (ties keep the earlier contour). -/
def largestContour (c0 : ContourData) (rest : List ContourData) : ContourData :=
  rest.foldl (fun best c => if best.area < c.area then c else best) c0

/-- `analyze_fruit_shape(image)`, given the contour measurements found on its
edge map: circularity `4π·area/perimeter²` and convexity `area/hullArea`
(0 when the hull area is 0) blended `0.6/0.4`, scaled by 100, rounded and
capped at 100; `50` when no contour is found or the largest contour has no
positive perimeter. -/
def analyze_fruit_shape (piQ : ℚ) (contours : List ContourData) : ℚ :=
  match contours with
  | [] => 50
  | c0 :: rest =>
      let lc := largestContour c0 rest
      if 0 < lc.perimeter then
        let circularity := 4 * piQ * lc.area / (lc.perimeter * lc.perimeter)
        let convexity := if 0 < lc.hullArea then lc.area / lc.hullArea else 0
        min 100 (round2 ((circularity * (3/5) + convexity * (2/5)) * 100))
      else 50

/-- `calculate_freshness_score_enhanced(hsv, lab, image)`, with `cv2.Canny`'s
edge mask supplied as the set `canny` of its nonzero pixels: brightness,
saturation, vibrancy and edge-sharpness scores each capped at 100, blended
`0.25/0.35/0.25/0.15`, rounded to 2 decimals. -/
def calculate_freshness_score_enhanced (sqrtQ : ℚ → ℚ) (canny : Finset Pix)
    (h w : ℕ) (sat lL bB bG bR : ℕ → ℕ → ℕ) : ℚ :=
  let brightness := gmean h w fun p => ((lL p.1 p.2 : ℕ) : ℚ)
  let brightness_score := min 100 (brightness / 255 * 120)
  let saturation := gmean h w fun p => ((sat p.1 p.2 : ℕ) : ℚ)
  let saturation_score := min 100 (saturation / 255 * 110)
  let color_vibrancy := gstd sqrtQ h w bR + gstd sqrtQ h w bG + gstd sqrtQ h w bB
  let vibrancy_score := min 100 (color_vibrancy * (7/10))
  let edge_density := (canny.card : ℚ) / ((h * w : ℕ) : ℚ) * 100
  let sharpness_score := min 100 (edge_density * 10)
  round2 (brightness_score * (1/4) + saturation_score * (7/20) +
          vibrancy_score * (1/4) + sharpness_score * (3/20))

/-! ## The aggregated image and local metrics -/

/-- An input image together with its colour-space conversions: the `H × W`
channel planes the analyzers read (`cv2.cvtColor` is uninterpreted, so the
HSV, LAB, BGR and grayscale planes are independent channel data). -/
structure Img where
  H : ℕ
  W : ℕ
  hue : ℕ → ℕ → ℕ
  sat : ℕ → ℕ → ℕ
  vch : ℕ → ℕ → ℕ
  lL : ℕ → ℕ → ℕ
  lA : ℕ → ℕ → ℕ
  lB : ℕ → ℕ → ℕ
  bB : ℕ → ℕ → ℕ
  bG : ℕ → ℕ → ℕ
  bR : ℕ → ℕ → ℕ
  gray : ℕ → ℕ → ℕ

/-- The dictionary returned by `perform_local_analysis`. -/
structure LocalMetrics where
  brown_rot_percentage : ℚ
  black_spots_percentage : ℚ
  color_variance : ℚ
  texture_score : ℚ
  shape_integrity : ℚ
  freshness_score : ℚ

/-- `perform_local_analysis(image)`: runs the six analyzers and assembles the
metrics record.  `sqrtQ`, `piQ`, `canny` and `contours` stand for the opaque
library primitives described above. -/
def perform_local_analysis (sqrtQ : ℚ → ℚ) (piQ : ℚ) (canny : Finset Pix)
    (contours : List ContourData) (img : Img) : LocalMetrics where
  brown_rot_percentage :=
    detect_brown_rot_enhanced img.H img.W img.hue img.sat img.vch img.lL img.lA img.lB
  black_spots_percentage :=
    detect_black_spots_enhanced img.H img.W img.hue img.sat img.vch img.gray
  color_variance := analyze_color_uniformity sqrtQ img.H img.W img.lL img.lA img.lB
  texture_score := analyze_texture_quality sqrtQ img.H img.W img.gray
  shape_integrity := analyze_fruit_shape piQ contours
  freshness_score :=
    calculate_freshness_score_enhanced sqrtQ canny img.H img.W img.sat img.lL
      img.bB img.bG img.bR

/-! ## The keyword fallback classifier of `advance_Fruit-Detection.py`

Response texts are modelled as `List Char`; Python's `keyword in text_lower`
is `List.isInfixOf` on the `Char.toLower`-mapped text. -/

namespace Advance

/-- The ordered `conditions` dictionary of `create_fallback_analysis`
(Python dicts iterate in insertion order, so `BAD` is checked first). -/
def conditionsList : List (String × List (List Char)) :=
  [("BAD",
    (["rotten", "spoiled", "moldy", "decay", "inedible", "toxic",
      "dangerous"]).map String.toList),
   ("INSECT_DAMAGED",
    (["insect", "bug", "worm", "pest", "holes", "tunnels", "larvae"]).map
      String.toList),
   ("POOR", (["poor", "bad quality", "deteriorating", "declining"]).map String.toList),
   ("FAIR", (["fair", "moderate", "acceptable", "okay"]).map String.toList),
   ("GOOD", (["good", "fresh", "healthy", "nice"]).map String.toList),
   ("EXCELLENT",
    (["excellent", "perfect", "pristine", "ideal", "premium"]).map String.toList)]

/-- The `actions` dictionary lookup `actions.get(condition, dflt)`. -/
def actionsGet (c dflt : String) : String :=
  if c = "BAD" then "discard immediately"
  else if c = "INSECT_DAMAGED" then "remove from batch"
  else if c = "POOR" then "use within 24 hours"
  else if c = "FAIR" then "use within 2-3 days"
  else if c = "GOOD" then "consume normally"
  else if c = "EXCELLENT" then "enjoy at your leisure"
  else dflt

/-- `prevention_tips` entry for `BAD`. -/
def tipsBAD : List String :=
  ["Store fruits in cool, dry place", "Check daily for spoilage",
   "Remove bad fruits immediately", "Improve air circulation",
   "Use within optimal timeframe"]

/-- `prevention_tips` entry for `INSECT_DAMAGED`. -/
def tipsINSECT : List String :=
  ["Use protective mesh covers", "Apply organic pest deterrents",
   "Inspect fruits before storage", "Keep storage area clean",
   "Use pheromone traps"]

/-- `prevention_tips` entry `default`. -/
def tipsDefault : List String :=
  ["Store at proper temperature", "Handle with care", "Check regularly",
   "Maintain cleanliness", "Use first-in-first-out rotation"]

/-- `prevention_tips.get(condition, prevention_tips['default'])`. -/
def preventionGet (c : String) : List String :=
  if c = "BAD" then tipsBAD
  else if c = "INSECT_DAMAGED" then tipsINSECT
  else tipsDefault

/-- The dictionary returned by `create_fallback_analysis` (response-text
fields kept as character lists). -/
structure FallbackResult where
  fruit_type : String
  condition_category : String
  confidence_score : ℕ
  detailed_analysis : List Char
  ripeness : String
  freshness_score : ℕ
  recommendations : String
  key_observations : List String
  safety_assessment : String
  prevention_tips : List String
  storage_advice : String
  action_required : String

/-- `create_fallback_analysis(response_text)`: scan the category keyword sets
in dictionary order, first match wins; default `FAIR`/60 when nothing
matches. -/
def create_fallback_analysis (text : List Char) : FallbackResult :=
  let tl := text.map Char.toLower
  let found := conditionsList.find? fun ck => ck.2.any fun kw => decide (kw <:+: tl)
  let condition := match found with
    | some ck => ck.1
    | none => "FAIR"
  let confidence : ℕ := match found with
    | some ck => if ck.1 = "FAIR" ∨ ck.1 = "POOR" then 70 else 85
    | none => 60
  { fruit_type := "unknown fruit"
    condition_category := condition
    confidence_score := confidence
    detailed_analysis := text.take 200 ++ ("...").toList
    ripeness := "unknown"
    freshness_score := 50
    recommendations := "Based on visual analysis: " ++ actionsGet condition "monitor closely"
    key_observations := ["AI analysis incomplete - based on limited data"]
    safety_assessment :=
      if condition = "BAD" ∨ condition = "POOR" then "questionable" else "likely safe"
    prevention_tips := preventionGet condition
    storage_advice := "Store properly based on fruit type"
    action_required := actionsGet condition "check manually" }

end Advance

/-! ## The keyword fallback classifier of `goodUI.py` -/

namespace GoodUI

/-- The dictionary returned by `goodUI.py`'s `create_fallback_analysis`. -/
structure FallbackResult where
  fruit_type : String
  condition_category : String
  confidence_score : ℕ
  detailed_analysis : List Char
  ripeness : String
  freshness_score : ℕ
  recommendations : String
  key_observations : List (List Char)
  safety_assessment : String
  prevention_tips : List String
  storage_advice : String
  action_required : String

/-- `goodUI.py`'s `create_fallback_analysis(response_text)`: an if/elif chain
over keyword groups, `POOR`/60 as the final else. -/
def create_fallback_analysis (text : List Char) : FallbackResult :=
  let tl := text.map Char.toLower
  let hit : List String → Bool := fun kws => kws.any fun kw => decide (kw.toList <:+: tl)
  let (condition, confidence, action, prevention) :
      String × ℕ × String × List String :=
    if hit ["rotten", "spoiled", "moldy", "severely damaged", "bad condition",
            "unsafe", "decay"] then
      ("BAD", 85, "discard",
       ["Store in cool, dry place", "Check fruits regularly",
        "Remove damaged fruits immediately"])
    else if hit ["insect", "holes", "bite marks", "pest damage", "chewed",
                 "puncture"] then
      ("INSECT_DAMAGED", 80, "remove from batch",
       ["Use mesh covers", "Regular inspection", "Natural pest repellents"])
    else if hit ["excellent", "perfect", "pristine", "optimal"] then
      ("EXCELLENT", 90, "consume at leisure",
       ["Continue current storage", "Maintain temperature"])
    else if hit ["good condition", "fresh", "healthy", "quality"] then
      ("GOOD", 85, "consume normally",
       ["Monitor regularly", "Proper ventilation"])
    else if hit ["fair", "moderate", "declining", "some defects"] then
      ("FAIR", 70, "use within days",
       ["Improve storage conditions", "Use sooner"])
    else
      ("POOR", 60, "consume immediately",
       ["Better selection at purchase", "Improved storage"])
  { fruit_type := "unknown"
    condition_category := condition
    confidence_score := confidence
    detailed_analysis := text
    ripeness := "unknown"
    freshness_score := confidence
    recommendations := "Based on AI analysis"
    key_observations := [text.take 100 ++ ("...").toList]
    safety_assessment := "questionable"
    prevention_tips := prevention
    storage_advice := "Store properly"
    action_required := action }

end GoodUI

/-! ## The result-fusion step `combine_analysis_results` -/

/-- The parsed Gemini reply as consumed by `combine_analysis_results`
(a reply in which the consulted keys are present). -/
structure GeminiVerdict where
  condition_category : String
  confidence_score : ℚ
  detailed_analysis : String

/-- The `condition_mapping` dictionary lookup with its `"❓ UNCLEAR - CHECK
MANUALLY"` default. -/
def condition_mapping (c : String) : String :=
  if c = "EXCELLENT" then "🌟 EXCELLENT CONDITION - PREMIUM QUALITY"
  else if c = "GOOD" then "✅ GOOD CONDITION - FRESH & HEALTHY"
  else if c = "FAIR" then "⚠️ FAIR CONDITION - MONITOR CLOSELY"
  else if c = "POOR" then "⚠️ POOR CONDITION - USE IMMEDIATELY"
  else if c = "BAD" then "🚫 BAD CONDITION - DO NOT CONSUME"
  else if c = "INSECT_DAMAGED" then "🐛 INSECT DAMAGE - REMOVE FROM BATCH"
  else "❓ UNCLEAR - CHECK MANUALLY"

/-- The `color_mapping` dictionary lookup with its `'#808080'` default. -/
def color_mapping (c : String) : String :=
  if c = "EXCELLENT" then "#00ff00"
  else if c = "GOOD" then "#32cd32"
  else if c = "FAIR" then "#ffa500"
  else if c = "POOR" then "#ff6347"
  else if c = "BAD" then "#ff0000"
  else if c = "INSECT_DAMAGED" then "#8b0000"
  else "#808080"

/-- The computed core of the result dictionary built by
`combine_analysis_results` (`condition`, `confidence`, `description`,
`color`; the remaining keys are verbatim pass-through metadata). -/
structure CombinedResult where
  condition : String
  confidence : ℚ
  description : String
  color : String

/-- `combine_analysis_results(gemini_result, local_analysis)`: Gemini-priority
fusion with a conflict downgrade and an agreement boost, falling back to the
local-only threshold ladder when the remote verdict is absent.  The final
`'confidence': round(confidence, 1)` is `round1`. -/
def combine_analysis_results (gemini_result : Option GeminiVerdict)
    (local_analysis : LocalMetrics) : CombinedResult :=
  match gemini_result with
  | some gr =>
      let ai_condition := gr.condition_category
      let ai_confidence := gr.confidence_score
      let local_bad_score := local_analysis.brown_rot_percentage * (5/2) +
        local_analysis.black_spots_percentage * (7/2)
      if 20 < local_bad_score ∧ (ai_condition = "EXCELLENT" ∨ ai_condition = "GOOD") then
        { condition := "⚠️ CONFLICTING RESULTS - MANUAL CHECK NEEDED"
          confidence := round1 (max (ai_confidence - 15) 50)
          description := gr.detailed_analysis
          color := "#ff6347" }
      else if local_bad_score < 5 ∧ (ai_condition = "BAD" ∨ ai_condition = "POOR") then
        { condition := condition_mapping ai_condition
          confidence := round1 (max (ai_confidence - 10) 60)
          description := gr.detailed_analysis
          color := color_mapping ai_condition }
      else
        { condition := condition_mapping ai_condition
          confidence := round1 (min (ai_confidence + 5) 95)
          description := gr.detailed_analysis
          color := color_mapping ai_condition }
  | none =>
      let local_bad_score := local_analysis.brown_rot_percentage * 3 +
        local_analysis.black_spots_percentage * 4
      let freshness := local_analysis.freshness_score
      if 25 < local_bad_score ∨ freshness < 30 then
        { condition := "🚫 BAD CONDITION - DO NOT CONSUME"
          confidence := round1 75
          description := "Significant decay and quality issues detected."
          color := "#ff0000" }
      else if 15 < local_bad_score ∨ freshness < 50 then
        { condition := "⚠️ POOR CONDITION - USE IMMEDIATELY"
          confidence := round1 70
          description := "Quality declining rapidly. Use within 24 hours."
          color := "#ff6347" }
      else if 8 < local_bad_score ∨ freshness < 70 then
        { condition := "⚠️ FAIR CONDITION - MONITOR CLOSELY"
          confidence := round1 65
          description := "Some quality concerns. Monitor daily."
          color := "#ffa500" }
      else if 85 < freshness ∧ local_bad_score < 3 then
        { condition := "🌟 EXCELLENT CONDITION - PREMIUM QUALITY"
          confidence := round1 80
          description := "Outstanding quality fruit."
          color := "#00ff00" }
      else
        { condition := "✅ GOOD CONDITION - FRESH & HEALTHY"
          confidence := round1 75
          description := "Good quality fruit suitable for consumption."
          color := "#32cd32" }

/-! ## The result-fusion step of `goodUI.py` -/

namespace GoodUI

/-- `goodUI.py`'s `condition_mapping` lookup with its `"❓ UNCLEAR"` default. -/
def condition_mapping (c : String) : String :=
  if c = "EXCELLENT" then "✅ EXCELLENT CONDITION"
  else if c = "GOOD" then "✅ GOOD CONDITION"
  else if c = "FAIR" then "⚠️ FAIR CONDITION"
  else if c = "POOR" then "⚠️ POOR CONDITION"
  else if c = "BAD" then "🚫 BAD CONDITION - DISCARD"
  else if c = "INSECT_DAMAGED" then "🐛 INSECT DAMAGE - REMOVE"
  else "❓ UNCLEAR"

/-- `goodUI.py`'s `color_mapping` lookup with its `'#808080'` default. -/
def color_mapping (c : String) : String :=
  if c = "EXCELLENT" then "#00ff00"
  else if c = "GOOD" then "#90ee90"
  else if c = "FAIR" then "#ffa500"
  else if c = "POOR" then "#ff6347"
  else if c = "BAD" then "#ff0000"
  else if c = "INSECT_DAMAGED" then "#8b0000"
  else "#808080"

/-- `goodUI.py`'s `make_final_decision_gemini_priority(gemini_result,
local_analysis)`: with a present remote verdict, downgrade only when the
local badness score `brown·2 + black·3` exceeds 15 against an
EXCELLENT/GOOD verdict (`max(raw − 10, 60)`), otherwise pass the raw
confidence through unchanged; without one, a three-band local ladder.  The
final `'confidence': round(confidence, 1)` is `round1`. -/
def make_final_decision_gemini_priority (gemini_result : Option GeminiVerdict)
    (local_analysis : LocalMetrics) : CombinedResult :=
  match gemini_result with
  | some gr =>
      let ai_condition := gr.condition_category
      let ai_confidence := gr.confidence_score
      let local_bad_score := local_analysis.brown_rot_percentage * 2 +
        local_analysis.black_spots_percentage * 3
      let confidence :=
        if 15 < local_bad_score ∧ (ai_condition = "EXCELLENT" ∨ ai_condition = "GOOD")
        then max (ai_confidence - 10) 60
        else ai_confidence
      let description :=
        if 200 < gr.detailed_analysis.length
        then String.mk (gr.detailed_analysis.toList.take 200) ++ "..."
        else gr.detailed_analysis
      { condition := condition_mapping ai_condition
        confidence := round1 confidence
        description := description
        color := color_mapping ai_condition }
  | none =>
      let local_bad_score := local_analysis.brown_rot_percentage * 3 +
        local_analysis.black_spots_percentage * 4
      if 20 < local_bad_score then
        { condition := "🚫 BAD CONDITION - DISCARD"
          confidence := round1 75
          description := "Local analysis detected significant defects. This fruit should be discarded."
          color := "#ff0000" }
      else if 10 < local_bad_score then
        { condition := "⚠️ FAIR CONDITION"
          confidence := round1 65
          description := "Local analysis shows some quality issues. Use soon."
          color := "#ffa500" }
      else
        { condition := "✅ GOOD CONDITION"
          confidence := round1 local_analysis.freshness_score
          description := "Local analysis shows good quality"
          color := "#90ee90" }

/-- `goodUI.py`'s `combine_analysis_results` merely delegates to
`make_final_decision_gemini_priority`. -/
def combine_analysis_results (gemini_result : Option GeminiVerdict)
    (local_analysis : LocalMetrics) : CombinedResult :=
  make_final_decision_gemini_priority gemini_result local_analysis

end GoodUI

/-! ## The defect-overlay renderer `create_enhanced_analysis_overlay` -/

/-- `cv2.inRange(hsv, [0,0,0], [180,255,30])`: the overlay renderer's own
dark band (value ≤ 30, tighter than the detector's value ≤ 50 and without
the detector's grayscale AND). -/
def overlayBlackMask (h w : ℕ) (hue sat vch : ℕ → ℕ → ℕ) : Finset Pix :=
  (grid h w).filter fun p =>
    hue p.1 p.2 ≤ 180 ∧ sat p.1 p.2 ≤ 255 ∧ vch p.1 p.2 ≤ 30

/-- The pixels `create_enhanced_analysis_overlay` paints red: its dark band,
applied only when `black_spots_percentage > 0`. -/
def overlayRedSet (h w : ℕ) (hue sat vch : ℕ → ℕ → ℕ)
    (local_analysis : LocalMetrics) : Finset Pix :=
  if 0 < local_analysis.black_spots_percentage
  then overlayBlackMask h w hue sat vch else ∅

/-- The pixels `create_enhanced_analysis_overlay` leaves painted orange: its
brown band (the same `inRange` bounds as the detector's HSV stage), applied
only when `brown_rot_percentage > 0`; the red recolouring is applied
afterwards, so red wins on the overlap. -/
def overlayOrangeSet (h w : ℕ) (hue sat vch : ℕ → ℕ → ℕ)
    (local_analysis : LocalMetrics) : Finset Pix :=
  (if 0 < local_analysis.brown_rot_percentage
   then brownMaskHSV h w hue sat vch else ∅) \
    overlayRedSet h w hue sat vch local_analysis

/-- One channel of `cv2.addWeighted(image, 0.6, overlay, 0.4, 0)`
(`saturate_cast<uchar>` with OpenCV's round-half-even). -/
def addWeightedChan (a b : ℕ) : ℕ :=
  (max 0 (min 255 (rhe ((3/5) * (a : ℚ) + (2/5) * (b : ℚ))))).toNat

/-- The recoloured copy `overlay` of the input built by
`create_enhanced_analysis_overlay` before blending, as a BGR triple per
pixel. -/
def overlayRecolored (h w : ℕ) (hue sat vch bB bG bR : ℕ → ℕ → ℕ)
    (local_analysis : LocalMetrics) (p : Pix) : ℕ × ℕ × ℕ :=
  if p ∈ overlayRedSet h w hue sat vch local_analysis then (0, 0, 255)
  else if p ∈ overlayOrangeSet h w hue sat vch local_analysis then (0, 165, 255)
  else (bB p.1 p.2, bG p.1 p.2, bR p.1 p.2)

/-- The defect-highlighting portion of `create_enhanced_analysis_overlay`:
the recoloured copy blended over the original at `0.6 / 0.4`, per pixel in
BGR. -/
def create_enhanced_analysis_overlay (h w : ℕ)
    (hue sat vch bB bG bR : ℕ → ℕ → ℕ) (local_analysis : LocalMetrics)
    (p : Pix) : ℕ × ℕ × ℕ :=
  let recol := overlayRecolored h w hue sat vch bB bG bR local_analysis p
  (addWeightedChan (bB p.1 p.2) recol.1,
   addWeightedChan (bG p.1 p.2) recol.2.1,
   addWeightedChan (bR p.1 p.2) recol.2.2)

/-! ## Claims about the fusion step -/

theorem round1_95 : round1 (95 : ℚ) = 95 := by norm_num [round1, rhe]

theorem round1_60 : round1 (60 : ℚ) = 60 := by norm_num [round1, rhe]

theorem round1_50 : round1 (50 : ℚ) = 50 := by norm_num [round1, rhe]

/-- **C1, counterexample.**  At `brown_rot_percentage = 30`,
`black_spots_percentage = 0`, remote `EXCELLENT` with raw confidence 50, the
fused result is the synthetic conflict condition but its confidence is
`max(50 − 15, 50) = 50`, not strictly below the raw confidence — refuting
the claim as stated for raw confidences at or below the floor. -/
theorem c1_conflict_counterexample :
    (combine_analysis_results
        (some ⟨"EXCELLENT", 50, "AI analysis completed"⟩)
        ⟨30, 0, 0, 0, 0, 0⟩).condition =
      "⚠️ CONFLICTING RESULTS - MANUAL CHECK NEEDED" ∧
    ¬ ((combine_analysis_results
        (some ⟨"EXCELLENT", 50, "AI analysis completed"⟩)
        ⟨30, 0, 0, 0, 0, 0⟩).confidence < 50) := by
  constructor
  · norm_num [combine_analysis_results]
  · norm_num [combine_analysis_results, round1, rhe, max_def]

/-- **C1 (amended).**  For every `LocalMetrics` with
`brown_rot_percentage = 30` and `black_spots_percentage ≥ 0` and every
present remote verdict with `condition_category = EXCELLENT` and raw
confidence in `[0, 100]`, the fused result is the synthetic conflict
condition and its confidence is `round(max(raw − 15, 50), 1)`, which is
strictly below the raw confidence exactly when the raw confidence exceeds
the floor 50. -/
theorem c1_conflict_amended (g : GeminiVerdict) (la : LocalMetrics)
    (hcond : g.condition_category = "EXCELLENT")
    (hbrown : la.brown_rot_percentage = 30)
    (hblack : 0 ≤ la.black_spots_percentage)
    (hc0 : 0 ≤ g.confidence_score) (hc1 : g.confidence_score ≤ 100) :
    (combine_analysis_results (some g) la).condition =
      "⚠️ CONFLICTING RESULTS - MANUAL CHECK NEEDED" ∧
    (combine_analysis_results (some g) la).confidence =
      round1 (max (g.confidence_score - 15) 50) ∧
    (50 < g.confidence_score →
      (combine_analysis_results (some g) la).confidence < g.confidence_score) := by
  have hgt : 20 < la.brown_rot_percentage * (5/2) +
      la.black_spots_percentage * (7/2) := by
    rw [hbrown]
    nlinarith
  have hork : g.condition_category = "EXCELLENT" ∨ g.condition_category = "GOOD" :=
    Or.inl hcond
  simp only [combine_analysis_results]
  rw [if_pos ⟨hgt, hork⟩]
  refine ⟨rfl, rfl, fun h50 => ?_⟩
  rcases le_total (g.confidence_score - 15) 50 with h1 | h1
  · rw [max_eq_right h1, round1_50]
    exact h50
  · rw [max_eq_left h1]
    have := round1_le_add (g.confidence_score - 15)
    linarith

/-- **C1 (amended), witness.** -/
theorem c1_conflict_amended_witness :
    (0 : ℚ) ≤ 0 ∧ (0 : ℚ) ≤ 80 ∧ (80 : ℚ) ≤ 100 ∧
    ((combine_analysis_results
        (some ⟨"EXCELLENT", 80, "z"⟩) ⟨30, 0, 0, 0, 0, 0⟩).condition =
      "⚠️ CONFLICTING RESULTS - MANUAL CHECK NEEDED" ∧
     (combine_analysis_results
        (some ⟨"EXCELLENT", 80, "z"⟩) ⟨30, 0, 0, 0, 0, 0⟩).confidence =
      round1 (max ((80 : ℚ) - 15) 50) ∧
     ((50 : ℚ) < 80 →
      (combine_analysis_results
        (some ⟨"EXCELLENT", 80, "z"⟩) ⟨30, 0, 0, 0, 0, 0⟩).confidence < 80)) :=
  ⟨by norm_num, by norm_num, by norm_num,
   c1_conflict_amended ⟨"EXCELLENT", 80, "z"⟩ ⟨30, 0, 0, 0, 0, 0⟩ rfl rfl
     (by norm_num) (by norm_num) (by norm_num)⟩

/-- **C2, counterexample.**  The claim also covers `goodUI.py`'s
`make_final_decision_gemini_priority`, whose agreement branch passes the raw
confidence through unchanged: at zero defect percentages, remote `GOOD` with
raw confidence 100, the fused confidence is 100 — above the claimed 95 cap
and not boosted — refuting the claim for that cited source. -/
theorem c2_agreement_counterexample :
    (GoodUI.make_final_decision_gemini_priority
        (some ⟨"GOOD", 100, "z"⟩) ⟨0, 0, 0, 0, 0, 0⟩).confidence = 100 ∧
    ¬ ((GoodUI.make_final_decision_gemini_priority
        (some ⟨"GOOD", 100, "z"⟩) ⟨0, 0, 0, 0, 0, 0⟩).confidence ≤ 95) := by
  constructor <;>
    norm_num [GoodUI.make_final_decision_gemini_priority, round1, rhe]

/-- **C2 (amended).**  For every `LocalMetrics` with both defect percentages
0 and every present remote verdict with `condition_category = GOOD` and raw
confidence in `[0, 100]`: in `advance_Fruit-Detection.py`'s
`combine_analysis_results` the agreement branch boosts to
`round(min(raw + 5, 95), 1)`, so the fused confidence is at least
`min(raw, 95)` and at most 95, as the claim states; in `goodUI.py`'s
`make_final_decision_gemini_priority` the agreement branch leaves the
confidence unchanged — the fused confidence is `round(raw, 1)`, with no
boost and no 95 cap. -/
theorem c2_agreement_amended (g : GeminiVerdict) (la : LocalMetrics)
    (hcond : g.condition_category = "GOOD")
    (hbrown : la.brown_rot_percentage = 0)
    (hblack : la.black_spots_percentage = 0)
    (hc0 : 0 ≤ g.confidence_score) (hc1 : g.confidence_score ≤ 100) :
    (min g.confidence_score 95 ≤ (combine_analysis_results (some g) la).confidence ∧
     (combine_analysis_results (some g) la).confidence ≤ 95) ∧
    (GoodUI.make_final_decision_gemini_priority (some g) la).confidence =
      round1 g.confidence_score := by
  constructor
  · simp only [combine_analysis_results]
    rw [if_neg, if_neg]
    · constructor
      · rcases le_total (g.confidence_score + 5) 95 with h1 | h1
        · rw [min_eq_left h1]
          have := sub_le_round1 (g.confidence_score + 5)
          have hm : min g.confidence_score 95 ≤ g.confidence_score := min_le_left _ _
          linarith
        · rw [min_eq_right h1, round1_95]
          exact min_le_right _ _
      · have h1 : min (g.confidence_score + 5) 95 ≤ 95 := min_le_right _ _
        have := round1_mono h1
        rwa [round1_95] at this
    · rintro ⟨-, hbp⟩
      rw [hcond] at hbp
      revert hbp
      decide
    · rintro ⟨hgt, -⟩
      rw [hbrown, hblack] at hgt
      norm_num at hgt
  · simp only [GoodUI.make_final_decision_gemini_priority]
    rw [if_neg]
    rintro ⟨hgt, -⟩
    rw [hbrown, hblack] at hgt
    norm_num at hgt

/-- **C2 (amended), witness.** -/
theorem c2_agreement_amended_witness :
    (0 : ℚ) ≤ 90 ∧ (90 : ℚ) ≤ 100 ∧
    ((min (90 : ℚ) 95 ≤
       (combine_analysis_results
         (some ⟨"GOOD", 90, "z"⟩) ⟨0, 0, 0, 0, 0, 0⟩).confidence ∧
      (combine_analysis_results
         (some ⟨"GOOD", 90, "z"⟩) ⟨0, 0, 0, 0, 0, 0⟩).confidence ≤ 95) ∧
     (GoodUI.make_final_decision_gemini_priority
        (some ⟨"GOOD", 90, "z"⟩) ⟨0, 0, 0, 0, 0, 0⟩).confidence =
       round1 (90 : ℚ)) :=
  ⟨by norm_num, by norm_num,
   c2_agreement_amended ⟨"GOOD", 90, "z"⟩ ⟨0, 0, 0, 0, 0, 0⟩ rfl rfl rfl
     (by norm_num) (by norm_num)⟩

/-- **C3, counterexample.**  At zero local defects, remote `BAD` with raw
confidence 50, the fused confidence is `max(50 − 10, 60) = 60`, which
exceeds the raw confidence — refuting the claim that the fused confidence
never exceeds the remote's raw confidence (the condition, however, does keep
the remote's negative verdict). -/
theorem c3_negative_remote_counterexample :
    (combine_analysis_results
        (some ⟨"BAD", 50, "z"⟩) ⟨0, 0, 0, 0, 0, 0⟩).condition =
      "🚫 BAD CONDITION - DO NOT CONSUME" ∧
    ¬ ((combine_analysis_results
        (some ⟨"BAD", 50, "z"⟩) ⟨0, 0, 0, 0, 0, 0⟩).confidence ≤ 50) := by
  constructor
  · norm_num [combine_analysis_results, condition_mapping]
    decide
  · norm_num [combine_analysis_results, round1, rhe, max_def]

/-- **C3 (amended).**  For every `LocalMetrics` whose local badness score
`brown·2.5 + black·3.5` is below the low threshold 5 and every present
remote verdict with `condition_category` `BAD` or `POOR` and raw confidence
in `[0, 100]`, the fusion keeps the display condition mapped from the
remote's negative category, and its confidence is the smaller reduction
`round(max(raw − 10, 60), 1)`, which does not exceed the raw confidence
whenever the raw confidence is at least the floor 60. -/
theorem c3_negative_remote_amended (g : GeminiVerdict) (la : LocalMetrics)
    (hcond : g.condition_category = "BAD" ∨ g.condition_category = "POOR")
    (hlow : la.brown_rot_percentage * (5/2) +
      la.black_spots_percentage * (7/2) < 5)
    (hc0 : 0 ≤ g.confidence_score) (hc1 : g.confidence_score ≤ 100) :
    (combine_analysis_results (some g) la).condition =
      condition_mapping g.condition_category ∧
    (combine_analysis_results (some g) la).confidence =
      round1 (max (g.confidence_score - 10) 60) ∧
    (60 ≤ g.confidence_score →
      (combine_analysis_results (some g) la).confidence ≤ g.confidence_score) := by
  have hlt : la.brown_rot_percentage * (5/2) +
      la.black_spots_percentage * (7/2) < 5 := hlow
  simp only [combine_analysis_results]
  rw [if_neg, if_pos ⟨hlt, hcond⟩]
  · refine ⟨rfl, rfl, fun h60 => ?_⟩
    rcases le_total (g.confidence_score - 10) 60 with h1 | h1
    · rw [max_eq_right h1, round1_60]
      exact h60
    · rw [max_eq_left h1]
      have := round1_le_add (g.confidence_score - 10)
      linarith
  · rintro ⟨-, hbp⟩
    rcases hcond with hbad | hpoor
    · rw [hbad] at hbp
      revert hbp
      decide
    · rw [hpoor] at hbp
      revert hbp
      decide

/-- **C3 (amended), witness.** -/
theorem c3_negative_remote_amended_witness :
    (0 : ℚ) * (5/2) + (0 : ℚ) * (7/2) < 5 ∧
    (0 : ℚ) ≤ 80 ∧ (80 : ℚ) ≤ 100 ∧
    ((combine_analysis_results
        (some ⟨"BAD", 80, "z"⟩) ⟨0, 0, 0, 0, 0, 0⟩).condition =
      condition_mapping "BAD" ∧
     (combine_analysis_results
        (some ⟨"BAD", 80, "z"⟩) ⟨0, 0, 0, 0, 0, 0⟩).confidence =
      round1 (max ((80 : ℚ) - 10) 60) ∧
     ((60 : ℚ) ≤ 80 →
      (combine_analysis_results
        (some ⟨"BAD", 80, "z"⟩) ⟨0, 0, 0, 0, 0, 0⟩).confidence ≤ 80)) :=
  ⟨by norm_num, by norm_num, by norm_num,
   c3_negative_remote_amended ⟨"BAD", 80, "z"⟩ ⟨0, 0, 0, 0, 0, 0⟩ (Or.inl rfl)
     (by norm_num) (by norm_num) (by norm_num)⟩

/-- **C4.**  With the remote verdict absent and
`LocalMetrics{brown_rot = 0, black_spots = 0, freshness = 90}`, the
degraded-path threshold ladder lands in its top band: the EXCELLENT display
condition with that band's fixed confidence 80 (in particular not the BAD,
POOR or FAIR band). -/
theorem c4_remote_absent_ladder (la : LocalMetrics)
    (hbrown : la.brown_rot_percentage = 0)
    (hblack : la.black_spots_percentage = 0)
    (hfresh : la.freshness_score = 90) :
    (combine_analysis_results none la).condition =
      "🌟 EXCELLENT CONDITION - PREMIUM QUALITY" ∧
    (combine_analysis_results none la).confidence = 80 := by
  simp only [combine_analysis_results, hbrown, hblack, hfresh]
  norm_num [round1, rhe]

/-- **C4, witness.** -/
theorem c4_remote_absent_ladder_witness :
    (combine_analysis_results none ⟨0, 0, 0, 0, 0, 90⟩).condition =
      "🌟 EXCELLENT CONDITION - PREMIUM QUALITY" ∧
    (combine_analysis_results none ⟨0, 0, 0, 0, 0, 90⟩).confidence = 80 :=
  c4_remote_absent_ladder ⟨0, 0, 0, 0, 0, 90⟩ rfl rfl rfl

/-! ## Claims about the keyword fallback classifier -/

theorem advance_find_bad {tl : List Char} (hm : ("moldy").toList <:+: tl) :
    Advance.conditionsList.find?
        (fun ck => ck.2.any fun kw => decide (kw <:+: tl)) =
      some ("BAD",
        (["rotten", "spoiled", "moldy", "decay", "inedible", "toxic",
          "dangerous"]).map String.toList) := by
  have hp : ((("BAD",
      (["rotten", "spoiled", "moldy", "decay", "inedible", "toxic",
        "dangerous"]).map String.toList) :
        String × List (List Char)).2.any fun kw => decide (kw <:+: tl)) = true := by
    simp only [List.any_eq_true, decide_eq_true_eq]
    exact ⟨("moldy").toList, by decide, hm⟩
  simp only [Advance.conditionsList]
  exact List.find?_cons_of_pos _ hp

/-- **C6.**  For every response text whose lowercased form contains both
"moldy" and "unsafe", the keyword fallback classifier returns `BAD` with its
fixed confidence, the discard action and the fixed `BAD` prevention tips —
in `advance_Fruit-Detection.py` (`BAD` is the first-checked category,
confidence 85, action "discard immediately", the `BAD` tips entry) and in
`goodUI.py` (first `if` branch, confidence 85, action "discard", its fixed
tips). -/
theorem c6_fallback_moldy_unsafe (text : List Char)
    (hm : ("moldy").toList <:+: text.map Char.toLower)
    (hu : ("unsafe").toList <:+: text.map Char.toLower) :
    (Advance.create_fallback_analysis text).condition_category = "BAD" ∧
    (Advance.create_fallback_analysis text).confidence_score = 85 ∧
    (Advance.create_fallback_analysis text).action_required = "discard immediately" ∧
    (Advance.create_fallback_analysis text).prevention_tips = Advance.tipsBAD ∧
    (GoodUI.create_fallback_analysis text).condition_category = "BAD" ∧
    (GoodUI.create_fallback_analysis text).confidence_score = 85 ∧
    (GoodUI.create_fallback_analysis text).action_required = "discard" ∧
    (GoodUI.create_fallback_analysis text).prevention_tips =
      ["Store in cool, dry place", "Check fruits regularly",
       "Remove damaged fruits immediately"] := by
  have hg : ((["rotten", "spoiled", "moldy", "severely damaged",
      "bad condition", "unsafe", "decay"] : List String).any fun kw =>
        decide (kw.toList <:+: text.map Char.toLower)) = true := by
    simp only [List.any_eq_true, decide_eq_true_eq]
    exact ⟨"moldy", by decide, hm⟩
  simp only [Advance.create_fallback_analysis, advance_find_bad hm,
    GoodUI.create_fallback_analysis]
  rw [if_pos hg]
  decide

/-- **C6, witness.** -/
theorem c6_fallback_moldy_unsafe_witness :
    (("moldy").toList <:+:
        (("this fruit looks Moldy and is unsafe to eat").toList.map Char.toLower)) ∧
    ((Advance.create_fallback_analysis
        ("this fruit looks Moldy and is unsafe to eat").toList).condition_category =
      "BAD" ∧
     (Advance.create_fallback_analysis
        ("this fruit looks Moldy and is unsafe to eat").toList).confidence_score = 85 ∧
     (Advance.create_fallback_analysis
        ("this fruit looks Moldy and is unsafe to eat").toList).action_required =
      "discard immediately" ∧
     (Advance.create_fallback_analysis
        ("this fruit looks Moldy and is unsafe to eat").toList).prevention_tips =
      Advance.tipsBAD ∧
     (GoodUI.create_fallback_analysis
        ("this fruit looks Moldy and is unsafe to eat").toList).condition_category =
      "BAD" ∧
     (GoodUI.create_fallback_analysis
        ("this fruit looks Moldy and is unsafe to eat").toList).confidence_score = 85 ∧
     (GoodUI.create_fallback_analysis
        ("this fruit looks Moldy and is unsafe to eat").toList).action_required =
      "discard" ∧
     (GoodUI.create_fallback_analysis
        ("this fruit looks Moldy and is unsafe to eat").toList).prevention_tips =
      ["Store in cool, dry place", "Check fruits regularly",
       "Remove damaged fruits immediately"]) :=
  ⟨by decide,
   c6_fallback_moldy_unsafe ("this fruit looks Moldy and is unsafe to eat").toList
     (by decide) (by decide)⟩

/-- **C10.**  For every response text whose lowercased form contains none of
the category keywords, the `advance_Fruit-Detection.py` fallback classifier
returns the default bucket: `FAIR` with confidence 60 (not the 70 a matched
`FAIR` would get), action "use within 2-3 days", safety "likely safe", and
the generic default prevention tips (the `FAIR` category has no dedicated
tips entry). -/
theorem c10_fallback_default_bucket (text : List Char)
    (hmiss : ∀ ck ∈ Advance.conditionsList,
      ∀ kw ∈ ck.2, ¬ (kw <:+: text.map Char.toLower)) :
    (Advance.create_fallback_analysis text).condition_category = "FAIR" ∧
    (Advance.create_fallback_analysis text).confidence_score = 60 ∧
    (Advance.create_fallback_analysis text).action_required = "use within 2-3 days" ∧
    (Advance.create_fallback_analysis text).safety_assessment = "likely safe" ∧
    (Advance.create_fallback_analysis text).prevention_tips = Advance.tipsDefault := by
  have hnone : Advance.conditionsList.find?
      (fun ck => ck.2.any fun kw => decide (kw <:+: text.map Char.toLower)) =
        none := by
    rw [List.find?_eq_none]
    rintro ⟨cond, kws⟩ hmem
    simp only [List.any_eq_true, decide_eq_true_eq, not_exists]
    rintro kw ⟨hkw, hinf⟩
    exact absurd hinf (hmiss (cond, kws) hmem kw hkw)
  simp [Advance.create_fallback_analysis, hnone]
  decide

/-- **C10, witness.** -/
theorem c10_fallback_default_bucket_witness :
    (∀ ck ∈ Advance.conditionsList,
      ∀ kw ∈ ck.2, ¬ (kw <:+: ("zzz").toList.map Char.toLower)) ∧
    ((Advance.create_fallback_analysis ("zzz").toList).condition_category = "FAIR" ∧
     (Advance.create_fallback_analysis ("zzz").toList).confidence_score = 60 ∧
     (Advance.create_fallback_analysis ("zzz").toList).action_required =
      "use within 2-3 days" ∧
     (Advance.create_fallback_analysis ("zzz").toList).safety_assessment =
      "likely safe" ∧
     (Advance.create_fallback_analysis ("zzz").toList).prevention_tips =
      Advance.tipsDefault) :=
  ⟨by decide, c10_fallback_default_bucket ("zzz").toList (by decide)⟩

/-! ## Claims about the shape analyzer -/

theorem foldl_largest_mem (l : List ContourData) (acc : ContourData) :
    l.foldl (fun best c => if best.area < c.area then c else best) acc ∈ acc :: l := by
  induction l generalizing acc with
  | nil => simp
  | cons c l ih =>
      rw [List.foldl_cons]
      by_cases hlt : acc.area < c.area
      · rw [if_pos hlt]
        rcases List.mem_cons.mp (ih c) with h | h
        · simp [h]
        · simp [List.mem_cons, h]
      · rw [if_neg hlt]
        rcases List.mem_cons.mp (ih acc) with h | h
        · simp [h]
        · simp [List.mem_cons, h]

theorem largestContour_mem (c0 : ContourData) (rest : List ContourData) :
    largestContour c0 rest ∈ c0 :: rest :=
  foldl_largest_mem rest c0

/-- Full behavioural description of `analyze_fruit_shape`, shared by the
claims below. -/
theorem analyze_fruit_shape_spec (piQ : ℚ) (contours : List ContourData)
    (hpi : 0 < piQ)
    (hc : ∀ c ∈ contours, 0 ≤ c.area ∧ 0 ≤ c.perimeter ∧ 0 ≤ c.hullArea) :
    0 ≤ analyze_fruit_shape piQ contours ∧
    analyze_fruit_shape piQ contours ≤ 100 ∧
    (contours = [] → analyze_fruit_shape piQ contours = 50) ∧
    (∀ c0 rest, contours = c0 :: rest →
      0 < (largestContour c0 rest).perimeter →
      analyze_fruit_shape piQ contours =
        min 100 (round2
          ((4 * piQ * (largestContour c0 rest).area /
              ((largestContour c0 rest).perimeter *
                (largestContour c0 rest).perimeter) * (3/5) +
            (largestContour c0 rest).area / (largestContour c0 rest).hullArea *
              (2/5)) * 100))) := by
  match contours, hc with
  | [], hc =>
      refine ⟨by norm_num [analyze_fruit_shape], by norm_num [analyze_fruit_shape],
        fun _ => rfl, fun c0 rest heq => absurd heq (by simp)⟩
  | c0 :: rest, hc =>
      obtain ⟨ha, hp, hh⟩ := hc _ (largestContour_mem c0 rest)
      by_cases hperim : 0 < (largestContour c0 rest).perimeter
      · have hcirc : 0 ≤ 4 * piQ * (largestContour c0 rest).area /
            ((largestContour c0 rest).perimeter * (largestContour c0 rest).perimeter) := by
          positivity
        have hconv : 0 ≤ (if 0 < (largestContour c0 rest).hullArea then
            (largestContour c0 rest).area / (largestContour c0 rest).hullArea else 0) := by
          split_ifs with h
          · positivity
          · exact le_refl 0
        have hsum : 0 ≤ (4 * piQ * (largestContour c0 rest).area /
            ((largestContour c0 rest).perimeter * (largestContour c0 rest).perimeter) * (3/5) +
            (if 0 < (largestContour c0 rest).hullArea then
              (largestContour c0 rest).area / (largestContour c0 rest).hullArea else 0) *
              (2/5)) * 100 := by nlinarith
        have hval : analyze_fruit_shape piQ (c0 :: rest) =
            min 100 (round2
              ((4 * piQ * (largestContour c0 rest).area /
                  ((largestContour c0 rest).perimeter *
                    (largestContour c0 rest).perimeter) * (3/5) +
                (if 0 < (largestContour c0 rest).hullArea then
                  (largestContour c0 rest).area / (largestContour c0 rest).hullArea
                 else 0) * (2/5)) * 100)) := by
          simp only [analyze_fruit_shape]
          rw [if_pos hperim]
        have hguard : (if 0 < (largestContour c0 rest).hullArea then
            (largestContour c0 rest).area / (largestContour c0 rest).hullArea else 0) =
            (largestContour c0 rest).area / (largestContour c0 rest).hullArea := by
          rcases lt_or_eq_of_le hh with h | h
          · rw [if_pos h]
          · rw [if_neg (by rw [← h]; exact lt_irrefl 0), ← h, div_zero]
        refine ⟨?_, ?_, fun habs => by simp at habs, fun d0 drest heq hdp => ?_⟩
        · rw [hval]
          exact le_min (by norm_num) (round2_nonneg hsum)
        · rw [hval]
          exact min_le_left _ _
        · injection heq with h1 h2
          subst h1
          subst h2
          rw [hval, hguard]
      · have hval : analyze_fruit_shape piQ (c0 :: rest) = 50 := by
          simp only [analyze_fruit_shape]
          rw [if_neg hperim]
        refine ⟨by rw [hval]; norm_num, by rw [hval]; norm_num,
          fun habs => by simp at habs, fun d0 drest heq hdp => ?_⟩
        injection heq with h1 h2
        subst h1
        subst h2
        exact absurd hdp hperim

/-- **C9.**  `analyze_fruit_shape` is total and bounded: it returns the
neutral default 50 when no contour is found (and when the largest contour
has no positive perimeter), and otherwise returns
`min(100, round((circularity·0.6 + convexity·0.4)·100, 2))` with
`circularity = 4π·area/perimeter²` and `convexity = area/hullArea`
(`ℚ` division by a zero hull area being 0, exactly the code's guard); the
result always lies in `[0, 100]`. -/
theorem c9_shape_total_and_bounded (piQ : ℚ) (contours : List ContourData)
    (hpi : 0 < piQ)
    (hc : ∀ c ∈ contours, 0 ≤ c.area ∧ 0 ≤ c.perimeter ∧ 0 ≤ c.hullArea) :
    0 ≤ analyze_fruit_shape piQ contours ∧
    analyze_fruit_shape piQ contours ≤ 100 ∧
    (contours = [] → analyze_fruit_shape piQ contours = 50) ∧
    (∀ c0 rest, contours = c0 :: rest →
      0 < (largestContour c0 rest).perimeter →
      analyze_fruit_shape piQ contours =
        min 100 (round2
          ((4 * piQ * (largestContour c0 rest).area /
              ((largestContour c0 rest).perimeter *
                (largestContour c0 rest).perimeter) * (3/5) +
            (largestContour c0 rest).area / (largestContour c0 rest).hullArea *
              (2/5)) * 100))) :=
  analyze_fruit_shape_spec piQ contours hpi hc

/-- **C9, witness.** -/
theorem c9_shape_total_and_bounded_witness :
    (0 : ℚ) < 157/50 ∧
    (0 ≤ analyze_fruit_shape (157/50) [] ∧
     analyze_fruit_shape (157/50) [] ≤ 100 ∧
     (([] : List ContourData) = [] → analyze_fruit_shape (157/50) [] = 50) ∧
     (∀ c0 rest, ([] : List ContourData) = c0 :: rest →
      0 < (largestContour c0 rest).perimeter →
      analyze_fruit_shape (157/50) [] =
        min 100 (round2
          ((4 * (157/50) * (largestContour c0 rest).area /
              ((largestContour c0 rest).perimeter *
                (largestContour c0 rest).perimeter) * (3/5) +
            (largestContour c0 rest).area / (largestContour c0 rest).hullArea *
              (2/5)) * 100)))) :=
  ⟨by norm_num,
   c9_shape_total_and_bounded (157/50) [] (by norm_num) (by simp)⟩

/-! ## The range invariant of the local metrics -/

theorem detect_brown_rot_range (h w : ℕ) (hue sat vch lL lA lB : ℕ → ℕ → ℕ)
    (hpos : 0 < h * w) :
    0 ≤ detect_brown_rot_enhanced h w hue sat vch lL lA lB ∧
    detect_brown_rot_enhanced h w hue sat vch lL lA lB ≤ 100 := by
  unfold detect_brown_rot_enhanced
  refine ⟨pixelPercentage_nonneg _ _ _, pixelPercentage_le_100 ?_ hpos⟩
  calc (brownDetectorMask h w hue sat vch lL lA lB).card
      ≤ (grid h w).card := Finset.card_le_card (brownDetectorMask_subset_grid _ _ _ _ _ _ _ _)
    _ = h * w := card_grid h w

theorem detect_black_spots_range (h w : ℕ) (hue sat vch gray : ℕ → ℕ → ℕ)
    (hpos : 0 < h * w) :
    0 ≤ detect_black_spots_enhanced h w hue sat vch gray ∧
    detect_black_spots_enhanced h w hue sat vch gray ≤ 100 := by
  unfold detect_black_spots_enhanced
  refine ⟨pixelPercentage_nonneg _ _ _, pixelPercentage_le_100 ?_ hpos⟩
  calc (blackDetectorMask h w hue sat vch gray).card
      ≤ (grid h w).card := Finset.card_le_card (blackDetectorMask_subset_grid _ _ _ _ _ _)
    _ = h * w := card_grid h w

theorem gstd_nonneg {sqrtQ : ℚ → ℚ} (hsqrt : ∀ x, 0 ≤ x → 0 ≤ sqrtQ x)
    (h w : ℕ) (f : ℕ → ℕ → ℕ) : 0 ≤ gstd sqrtQ h w f :=
  hsqrt _ (gvar_nonneg _ _ _)

theorem analyze_color_uniformity_nonneg {sqrtQ : ℚ → ℚ}
    (hsqrt : ∀ x, 0 ≤ x → 0 ≤ sqrtQ x) (h w : ℕ) (lL lA lB : ℕ → ℕ → ℕ) :
    0 ≤ analyze_color_uniformity sqrtQ h w lL lA lB := by
  unfold analyze_color_uniformity
  apply round2_nonneg
  have h1 := gstd_nonneg hsqrt h w lL
  have h2 := gstd_nonneg hsqrt h w lA
  have h3 := gstd_nonneg hsqrt h w lB
  linarith

theorem analyze_texture_quality_range {sqrtQ : ℚ → ℚ}
    (hsqrt : ∀ x, 0 ≤ x → 0 ≤ sqrtQ x) (h w : ℕ) (gray : ℕ → ℕ → ℕ) :
    0 ≤ analyze_texture_quality sqrtQ h w gray ∧
    analyze_texture_quality sqrtQ h w gray ≤ 100 := by
  unfold analyze_texture_quality
  have h1 : 0 ≤ gvar h w (convAt h w lapKernel gray) := gvar_nonneg _ _ _
  have h2 : 0 ≤ gmean h w fun p =>
      sqrtQ ((convAt h w sobelXKernel gray p) ^ 2 +
        (convAt h w sobelYKernel gray p) ^ 2) :=
    gmean_nonneg fun p _ => hsqrt _ (by positivity)
  have h3 : 0 ≤ gmean h w fun p => |convAt h w lbpKernel gray p| :=
    gmean_nonneg fun p _ => abs_nonneg _
  constructor
  · exact round2_nonneg (le_min (by norm_num) (by linarith))
  · exact round2_le_100 (min_le_left _ _)

theorem calculate_freshness_range {sqrtQ : ℚ → ℚ}
    (hsqrt : ∀ x, 0 ≤ x → 0 ≤ sqrtQ x) (canny : Finset Pix) (h w : ℕ)
    (sat lL bB bG bR : ℕ → ℕ → ℕ) :
    0 ≤ calculate_freshness_score_enhanced sqrtQ canny h w sat lL bB bG bR ∧
    calculate_freshness_score_enhanced sqrtQ canny h w sat lL bB bG bR ≤ 100 := by
  unfold calculate_freshness_score_enhanced
  have hbm : 0 ≤ gmean h w fun p => ((lL p.1 p.2 : ℕ) : ℚ) :=
    gmean_nonneg fun p _ => by positivity
  have hsm : 0 ≤ gmean h w fun p => ((sat p.1 p.2 : ℕ) : ℚ) :=
    gmean_nonneg fun p _ => by positivity
  have hvm : 0 ≤ gstd sqrtQ h w bR + gstd sqrtQ h w bG + gstd sqrtQ h w bB := by
    have := gstd_nonneg hsqrt h w bR
    have := gstd_nonneg hsqrt h w bG
    have := gstd_nonneg hsqrt h w bB
    linarith
  have hem : 0 ≤ (canny.card : ℚ) / ((h * w : ℕ) : ℚ) * 100 := by positivity
  have hb : 0 ≤ min 100 ((gmean h w fun p => ((lL p.1 p.2 : ℕ) : ℚ)) / 255 * 120) ∧
      min 100 ((gmean h w fun p => ((lL p.1 p.2 : ℕ) : ℚ)) / 255 * 120) ≤ 100 := by
    constructor
    · refine le_min (by norm_num : (0:ℚ) ≤ 100) ?_
      have := mul_nonneg (div_nonneg hbm (by norm_num : (0:ℚ) ≤ 255)) (by norm_num : (0:ℚ) ≤ 120)
      linarith
    · exact min_le_left _ _
  have hs : 0 ≤ min 100 ((gmean h w fun p => ((sat p.1 p.2 : ℕ) : ℚ)) / 255 * 110) ∧
      min 100 ((gmean h w fun p => ((sat p.1 p.2 : ℕ) : ℚ)) / 255 * 110) ≤ 100 := by
    constructor
    · refine le_min (by norm_num : (0:ℚ) ≤ 100) ?_
      have := mul_nonneg (div_nonneg hsm (by norm_num : (0:ℚ) ≤ 255)) (by norm_num : (0:ℚ) ≤ 110)
      linarith
    · exact min_le_left _ _
  have hv : 0 ≤ min 100 ((gstd sqrtQ h w bR + gstd sqrtQ h w bG + gstd sqrtQ h w bB) * (7/10)) ∧
      min 100 ((gstd sqrtQ h w bR + gstd sqrtQ h w bG + gstd sqrtQ h w bB) * (7/10)) ≤ 100 := by
    constructor
    · refine le_min (by norm_num : (0:ℚ) ≤ 100) ?_
      have := mul_nonneg hvm (by norm_num : (0:ℚ) ≤ 7/10)
      linarith
    · exact min_le_left _ _
  have hsh : 0 ≤ min 100 ((canny.card : ℚ) / ((h * w : ℕ) : ℚ) * 100 * 10) ∧
      min 100 ((canny.card : ℚ) / ((h * w : ℕ) : ℚ) * 100 * 10) ≤ 100 := by
    constructor
    · refine le_min (by norm_num : (0:ℚ) ≤ 100) ?_
      have := mul_nonneg hem (by norm_num : (0:ℚ) ≤ 10)
      linarith
    · exact min_le_left _ _
  constructor
  · apply round2_nonneg
    nlinarith [hb.1, hs.1, hv.1, hsh.1]
  · apply round2_le_100
    nlinarith [hb.2, hs.2, hv.2, hsh.2, hb.1, hs.1, hv.1, hsh.1]

/-- **C5.**  For every valid image (positive dimensions, arbitrary channel
data) and well-behaved library primitives (`sqrt ≥ 0` on nonnegative inputs,
`π > 0`, a Canny mask inside the image, nonnegative contour measurements),
every percentage and score field of the `LocalMetrics` record assembled by
`perform_local_analysis` lies in `[0, 100]`, and `color_variance ≥ 0` —
independent of the image's resolution. -/
theorem c5_local_metrics_range (sqrtQ : ℚ → ℚ) (piQ : ℚ) (canny : Finset Pix)
    (contours : List ContourData) (img : Img)
    (hH : 0 < img.H) (hW : 0 < img.W)
    (hsqrt : ∀ x, 0 ≤ x → 0 ≤ sqrtQ x)
    (hpi : 0 < piQ)
    (hcanny : canny ⊆ grid img.H img.W)
    (hcont : ∀ c ∈ contours, 0 ≤ c.area ∧ 0 ≤ c.perimeter ∧ 0 ≤ c.hullArea) :
    (0 ≤ (perform_local_analysis sqrtQ piQ canny contours img).brown_rot_percentage ∧
     (perform_local_analysis sqrtQ piQ canny contours img).brown_rot_percentage ≤ 100) ∧
    (0 ≤ (perform_local_analysis sqrtQ piQ canny contours img).black_spots_percentage ∧
     (perform_local_analysis sqrtQ piQ canny contours img).black_spots_percentage ≤ 100) ∧
    (0 ≤ (perform_local_analysis sqrtQ piQ canny contours img).texture_score ∧
     (perform_local_analysis sqrtQ piQ canny contours img).texture_score ≤ 100) ∧
    (0 ≤ (perform_local_analysis sqrtQ piQ canny contours img).shape_integrity ∧
     (perform_local_analysis sqrtQ piQ canny contours img).shape_integrity ≤ 100) ∧
    (0 ≤ (perform_local_analysis sqrtQ piQ canny contours img).freshness_score ∧
     (perform_local_analysis sqrtQ piQ canny contours img).freshness_score ≤ 100) ∧
    0 ≤ (perform_local_analysis sqrtQ piQ canny contours img).color_variance := by
  have hpos : 0 < img.H * img.W := Nat.mul_pos hH hW
  have hshape := analyze_fruit_shape_spec piQ contours hpi hcont
  exact ⟨detect_brown_rot_range _ _ _ _ _ _ _ _ hpos,
    detect_black_spots_range _ _ _ _ _ _ hpos,
    analyze_texture_quality_range hsqrt _ _ _,
    ⟨hshape.1, hshape.2.1⟩,
    calculate_freshness_range hsqrt _ _ _ _ _ _ _ _,
    analyze_color_uniformity_nonneg hsqrt _ _ _ _ _⟩

/-- **C5, witness** (a 1×1 all-zero image with trivial library primitives). -/
theorem c5_local_metrics_range_witness :
    0 < 1 ∧
    ((0 ≤ (perform_local_analysis (fun _ => 0) (157/50) ∅ []
        ⟨1, 1, fun _ _ => 0, fun _ _ => 0, fun _ _ => 0, fun _ _ => 0, fun _ _ => 0,
         fun _ _ => 0, fun _ _ => 0, fun _ _ => 0, fun _ _ => 0,
         fun _ _ => 0⟩).brown_rot_percentage ∧
      (perform_local_analysis (fun _ => 0) (157/50) ∅ []
        ⟨1, 1, fun _ _ => 0, fun _ _ => 0, fun _ _ => 0, fun _ _ => 0, fun _ _ => 0,
         fun _ _ => 0, fun _ _ => 0, fun _ _ => 0, fun _ _ => 0,
         fun _ _ => 0⟩).brown_rot_percentage ≤ 100) ∧
     (0 ≤ (perform_local_analysis (fun _ => 0) (157/50) ∅ []
        ⟨1, 1, fun _ _ => 0, fun _ _ => 0, fun _ _ => 0, fun _ _ => 0, fun _ _ => 0,
         fun _ _ => 0, fun _ _ => 0, fun _ _ => 0, fun _ _ => 0,
         fun _ _ => 0⟩).black_spots_percentage ∧
      (perform_local_analysis (fun _ => 0) (157/50) ∅ []
        ⟨1, 1, fun _ _ => 0, fun _ _ => 0, fun _ _ => 0, fun _ _ => 0, fun _ _ => 0,
         fun _ _ => 0, fun _ _ => 0, fun _ _ => 0, fun _ _ => 0,
         fun _ _ => 0⟩).black_spots_percentage ≤ 100) ∧
     (0 ≤ (perform_local_analysis (fun _ => 0) (157/50) ∅ []
        ⟨1, 1, fun _ _ => 0, fun _ _ => 0, fun _ _ => 0, fun _ _ => 0, fun _ _ => 0,
         fun _ _ => 0, fun _ _ => 0, fun _ _ => 0, fun _ _ => 0,
         fun _ _ => 0⟩).texture_score ∧
      (perform_local_analysis (fun _ => 0) (157/50) ∅ []
        ⟨1, 1, fun _ _ => 0, fun _ _ => 0, fun _ _ => 0, fun _ _ => 0, fun _ _ => 0,
         fun _ _ => 0, fun _ _ => 0, fun _ _ => 0, fun _ _ => 0,
         fun _ _ => 0⟩).texture_score ≤ 100) ∧
     (0 ≤ (perform_local_analysis (fun _ => 0) (157/50) ∅ []
        ⟨1, 1, fun _ _ => 0, fun _ _ => 0, fun _ _ => 0, fun _ _ => 0, fun _ _ => 0,
         fun _ _ => 0, fun _ _ => 0, fun _ _ => 0, fun _ _ => 0,
         fun _ _ => 0⟩).shape_integrity ∧
      (perform_local_analysis (fun _ => 0) (157/50) ∅ []
        ⟨1, 1, fun _ _ => 0, fun _ _ => 0, fun _ _ => 0, fun _ _ => 0, fun _ _ => 0,
         fun _ _ => 0, fun _ _ => 0, fun _ _ => 0, fun _ _ => 0,
         fun _ _ => 0⟩).shape_integrity ≤ 100) ∧
     (0 ≤ (perform_local_analysis (fun _ => 0) (157/50) ∅ []
        ⟨1, 1, fun _ _ => 0, fun _ _ => 0, fun _ _ => 0, fun _ _ => 0, fun _ _ => 0,
         fun _ _ => 0, fun _ _ => 0, fun _ _ => 0, fun _ _ => 0,
         fun _ _ => 0⟩).freshness_score ∧
      (perform_local_analysis (fun _ => 0) (157/50) ∅ []
        ⟨1, 1, fun _ _ => 0, fun _ _ => 0, fun _ _ => 0, fun _ _ => 0, fun _ _ => 0,
         fun _ _ => 0, fun _ _ => 0, fun _ _ => 0, fun _ _ => 0,
         fun _ _ => 0⟩).freshness_score ≤ 100) ∧
     0 ≤ (perform_local_analysis (fun _ => 0) (157/50) ∅ []
        ⟨1, 1, fun _ _ => 0, fun _ _ => 0, fun _ _ => 0, fun _ _ => 0, fun _ _ => 0,
         fun _ _ => 0, fun _ _ => 0, fun _ _ => 0, fun _ _ => 0,
         fun _ _ => 0⟩).color_variance) :=
  ⟨by decide,
   c5_local_metrics_range (fun _ => 0) (157/50) ∅ []
     ⟨1, 1, fun _ _ => 0, fun _ _ => 0, fun _ _ => 0, fun _ _ => 0, fun _ _ => 0,
      fun _ _ => 0, fun _ _ => 0, fun _ _ => 0, fun _ _ => 0, fun _ _ => 0⟩
     (by decide) (by decide) (fun x _ => le_refl 0) (by norm_num)
     (Finset.empty_subset _) (by simp)⟩

/-! ## Monotonicity of the black-spot detector -/

/-- **C8.**  Turning additional pixels dark — every pixel either keeps all
four channel values or becomes dark in the second image (inside the HSV
very-dark band `inRange([0,0,0],[180,255,50])` and at grayscale luminance at
most the threshold 30) — can only increase `black_spots_percentage`: the
growth survives the AND of the two masks, the morphological opening and the
minimum-area component filter. -/
theorem c8_black_spots_monotone (h w : ℕ)
    (hue1 sat1 vch1 gray1 hue2 sat2 vch2 gray2 : ℕ → ℕ → ℕ)
    (hch : ∀ p ∈ grid h w,
      (hue1 p.1 p.2 = hue2 p.1 p.2 ∧ sat1 p.1 p.2 = sat2 p.1 p.2 ∧
       vch1 p.1 p.2 = vch2 p.1 p.2 ∧ gray1 p.1 p.2 = gray2 p.1 p.2) ∨
      (hue2 p.1 p.2 ≤ 180 ∧ sat2 p.1 p.2 ≤ 255 ∧ vch2 p.1 p.2 ≤ 50 ∧
       gray2 p.1 p.2 ≤ 30)) :
    detect_black_spots_enhanced h w hue1 sat1 vch1 gray1 ≤
      detect_black_spots_enhanced h w hue2 sat2 vch2 gray2 := by
  have hmask : blackCombinedMask h w hue1 sat1 vch1 gray1 ⊆
      blackCombinedMask h w hue2 sat2 vch2 gray2 := by
    intro p hp
    simp only [blackCombinedMask, blackMaskHSV, blackMaskGray, Finset.mem_inter,
      Finset.mem_filter] at hp ⊢
    obtain ⟨⟨hpg, hh1, hs1, hv1⟩, -, hg1⟩ := hp
    rcases hch p hpg with ⟨e1, e2, e3, e4⟩ | hdark
    · exact ⟨⟨hpg, e1 ▸ hh1, e2 ▸ hs1, e3 ▸ hv1⟩, hpg, e4 ▸ hg1⟩
    · exact ⟨⟨hpg, hdark.1, hdark.2.1, hdark.2.2.1⟩, hpg, hdark.2.2.2⟩
  have hsig := significantM_mono h w (openM_mono h w ellipse3 hmask)
  unfold detect_black_spots_enhanced blackDetectorMask
  exact pixelPercentage_mono h w (Finset.card_le_card hsig)

/-- **C8, witness** (two equal 1×1 bright images). -/
theorem c8_black_spots_monotone_witness :
    (∀ p ∈ grid 1 1,
      ((fun _ _ => 200 : ℕ → ℕ → ℕ) p.1 p.2 = (fun _ _ => 200 : ℕ → ℕ → ℕ) p.1 p.2 ∧
       (fun _ _ => 200 : ℕ → ℕ → ℕ) p.1 p.2 = (fun _ _ => 200 : ℕ → ℕ → ℕ) p.1 p.2 ∧
       (fun _ _ => 200 : ℕ → ℕ → ℕ) p.1 p.2 = (fun _ _ => 200 : ℕ → ℕ → ℕ) p.1 p.2 ∧
       (fun _ _ => 200 : ℕ → ℕ → ℕ) p.1 p.2 = (fun _ _ => 200 : ℕ → ℕ → ℕ) p.1 p.2) ∨
      ((fun _ _ => 200 : ℕ → ℕ → ℕ) p.1 p.2 ≤ 180 ∧
       (fun _ _ => 200 : ℕ → ℕ → ℕ) p.1 p.2 ≤ 255 ∧
       (fun _ _ => 200 : ℕ → ℕ → ℕ) p.1 p.2 ≤ 50 ∧
       (fun _ _ => 200 : ℕ → ℕ → ℕ) p.1 p.2 ≤ 30)) ∧
    detect_black_spots_enhanced 1 1 (fun _ _ => 200) (fun _ _ => 200)
        (fun _ _ => 200) (fun _ _ => 200) ≤
      detect_black_spots_enhanced 1 1 (fun _ _ => 200) (fun _ _ => 200)
        (fun _ _ => 200) (fun _ _ => 200) :=
  ⟨by decide,
   c8_black_spots_monotone 1 1 (fun _ _ => 200) (fun _ _ => 200) (fun _ _ => 200)
     (fun _ _ => 200) (fun _ _ => 200) (fun _ _ => 200) (fun _ _ => 200)
     (fun _ _ => 200) (by decide)⟩

/-! ## Claims about the overlay renderer -/

/-- **C7, counterexample.**  On a 1×1 image whose only pixel is brown in LAB
space but not in the HSV brown band, the brown detector's final mask is the
whole pixel grid while the overlay paints no pixel orange (it re-derives
only the HSV band and ignores the LAB union and the morphology) — refuting
the claim that the overlay's orange set equals the brown detector's mask. -/
theorem c7_overlay_counterexample :
    overlayOrangeSet 1 1 (fun _ _ => 0) (fun _ _ => 0) (fun _ _ => 100)
        (perform_local_analysis (fun _ => 0) (157/50) ∅ []
          ⟨1, 1, fun _ _ => 0, fun _ _ => 0, fun _ _ => 100, fun _ _ => 100,
           fun _ _ => 10, fun _ _ => 20, fun _ _ => 0, fun _ _ => 0,
           fun _ _ => 0, fun _ _ => 100⟩) ≠
      brownDetectorMask 1 1 (fun _ _ => 0) (fun _ _ => 0) (fun _ _ => 100)
        (fun _ _ => 100) (fun _ _ => 10) (fun _ _ => 20) := by
  have hmask : brownDetectorMask 1 1 (fun _ _ => 0) (fun _ _ => 0)
      (fun _ _ => 100) (fun _ _ => 100) (fun _ _ => 10) (fun _ _ => 20) =
      {((0 : ℕ), (0 : ℕ))} := by decide
  have hB : (perform_local_analysis (fun _ => 0) (157/50) ∅ []
      ⟨1, 1, fun _ _ => 0, fun _ _ => 0, fun _ _ => 100, fun _ _ => 100,
       fun _ _ => 10, fun _ _ => 20, fun _ _ => 0, fun _ _ => 0,
       fun _ _ => 0, fun _ _ => 100⟩).brown_rot_percentage = 100 := by
    show detect_brown_rot_enhanced 1 1 (fun _ _ => 0) (fun _ _ => 0)
      (fun _ _ => 100) (fun _ _ => 100) (fun _ _ => 10) (fun _ _ => 20) = 100
    unfold detect_brown_rot_enhanced
    rw [hmask]
    norm_num [pixelPercentage, round2, rhe]
  have hzero : blackDetectorMask 1 1 (fun _ _ => 0) (fun _ _ => 0)
      (fun _ _ => 100) (fun _ _ => 100) = ∅ := by decide
  have hK : (perform_local_analysis (fun _ => 0) (157/50) ∅ []
      ⟨1, 1, fun _ _ => 0, fun _ _ => 0, fun _ _ => 100, fun _ _ => 100,
       fun _ _ => 10, fun _ _ => 20, fun _ _ => 0, fun _ _ => 0,
       fun _ _ => 0, fun _ _ => 100⟩).black_spots_percentage = 0 := by
    show detect_black_spots_enhanced 1 1 (fun _ _ => 0) (fun _ _ => 0)
      (fun _ _ => 100) (fun _ _ => 100) = 0
    unfold detect_black_spots_enhanced
    rw [hzero]
    norm_num [pixelPercentage, round2, rhe]
  unfold overlayOrangeSet overlayRedSet
  rw [if_pos (by rw [hB]; norm_num), if_neg (by rw [hK]; norm_num)]
  rw [hmask]
  decide

/-- **C7 (amended).**  The overlay renderer re-derives defect masks with its
own HSV-only thresholds rather than the detectors' full pipelines: its
orange set is the detector's HSV brown band (hence a subset of the
detector's raw combined brown mask, but without the LAB union or the
morphology), its red set is the tighter HSV dark band `value ≤ 30` (hence,
since grayscale luminance never exceeds the HSV value channel, a subset of
the detector's raw combined dark mask, but without the grayscale AND, the
opening or the area filter), each applied only when the corresponding
percentage is positive; the highlighted copy is blended over the original at
the fixed ratio 0.6 original / 0.4 overlay. -/
theorem c7_overlay_amended (h w : ℕ)
    (hue sat vch gray lL lA lB bB bG bR : ℕ → ℕ → ℕ) (la : LocalMetrics)
    (hluma : ∀ p ∈ grid h w, gray p.1 p.2 ≤ vch p.1 p.2) :
    overlayRedSet h w hue sat vch la ⊆ blackCombinedMask h w hue sat vch gray ∧
    overlayOrangeSet h w hue sat vch la ⊆
      brownMaskHSV h w hue sat vch ∪ brownMaskLAB h w lL lA lB ∧
    (∀ p ∈ overlayRedSet h w hue sat vch la,
      create_enhanced_analysis_overlay h w hue sat vch bB bG bR la p =
        (addWeightedChan (bB p.1 p.2) 0, addWeightedChan (bG p.1 p.2) 0,
         addWeightedChan (bR p.1 p.2) 255)) ∧
    (∀ p ∈ overlayOrangeSet h w hue sat vch la,
      create_enhanced_analysis_overlay h w hue sat vch bB bG bR la p =
        (addWeightedChan (bB p.1 p.2) 0, addWeightedChan (bG p.1 p.2) 165,
         addWeightedChan (bR p.1 p.2) 255)) ∧
    (∀ p, p ∉ overlayRedSet h w hue sat vch la →
      p ∉ overlayOrangeSet h w hue sat vch la →
      create_enhanced_analysis_overlay h w hue sat vch bB bG bR la p =
        (addWeightedChan (bB p.1 p.2) (bB p.1 p.2),
         addWeightedChan (bG p.1 p.2) (bG p.1 p.2),
         addWeightedChan (bR p.1 p.2) (bR p.1 p.2))) := by
  refine ⟨?_, ?_, ?_, ?_, ?_⟩
  · intro p hp
    unfold overlayRedSet at hp
    split_ifs at hp with hcond
    · simp only [overlayBlackMask, Finset.mem_filter] at hp
      obtain ⟨hpg, hh, hs, hv⟩ := hp
      simp only [blackCombinedMask, blackMaskHSV, blackMaskGray,
        Finset.mem_inter, Finset.mem_filter]
      exact ⟨⟨hpg, hh, hs, le_trans hv (by norm_num)⟩, hpg,
        le_trans (hluma p hpg) hv⟩
    · exact absurd hp (Finset.not_mem_empty p)
  · intro p hp
    unfold overlayOrangeSet at hp
    have hp' := (Finset.mem_sdiff.mp hp).1
    split_ifs at hp' with hcond
    · exact Finset.mem_union_left _ hp'
    · exact absurd hp' (Finset.not_mem_empty p)
  · intro p hp
    unfold create_enhanced_analysis_overlay overlayRecolored
    rw [if_pos hp]
  · intro p hp
    have hred : p ∉ overlayRedSet h w hue sat vch la :=
      (Finset.mem_sdiff.mp hp).2
    unfold create_enhanced_analysis_overlay overlayRecolored
    rw [if_neg hred, if_pos hp]
  · intro p hpr hpo
    unfold create_enhanced_analysis_overlay overlayRecolored
    rw [if_neg hpr, if_neg hpo]

/-- **C7 (amended), witness** (a 1×1 dark image with positive defect
percentages). -/
theorem c7_overlay_amended_witness :
    (∀ p ∈ grid 1 1,
      (fun _ _ => 10 : ℕ → ℕ → ℕ) p.1 p.2 ≤ (fun _ _ => 20 : ℕ → ℕ → ℕ) p.1 p.2) ∧
    (overlayRedSet 1 1 (fun _ _ => 10) (fun _ _ => 60) (fun _ _ => 20)
        ⟨5, 5, 0, 0, 0, 0⟩ ⊆
      blackCombinedMask 1 1 (fun _ _ => 10) (fun _ _ => 60) (fun _ _ => 20)
        (fun _ _ => 10) ∧
     overlayOrangeSet 1 1 (fun _ _ => 10) (fun _ _ => 60) (fun _ _ => 20)
        ⟨5, 5, 0, 0, 0, 0⟩ ⊆
      brownMaskHSV 1 1 (fun _ _ => 10) (fun _ _ => 60) (fun _ _ => 20) ∪
        brownMaskLAB 1 1 (fun _ _ => 100) (fun _ _ => 10) (fun _ _ => 20) ∧
     (∀ p ∈ overlayRedSet 1 1 (fun _ _ => 10) (fun _ _ => 60) (fun _ _ => 20)
        ⟨5, 5, 0, 0, 0, 0⟩,
      create_enhanced_analysis_overlay 1 1 (fun _ _ => 10) (fun _ _ => 60)
          (fun _ _ => 20) (fun _ _ => 1) (fun _ _ => 2) (fun _ _ => 3)
          ⟨5, 5, 0, 0, 0, 0⟩ p =
        (addWeightedChan ((fun _ _ => 1 : ℕ → ℕ → ℕ) p.1 p.2) 0,
         addWeightedChan ((fun _ _ => 2 : ℕ → ℕ → ℕ) p.1 p.2) 0,
         addWeightedChan ((fun _ _ => 3 : ℕ → ℕ → ℕ) p.1 p.2) 255)) ∧
     (∀ p ∈ overlayOrangeSet 1 1 (fun _ _ => 10) (fun _ _ => 60) (fun _ _ => 20)
        ⟨5, 5, 0, 0, 0, 0⟩,
      create_enhanced_analysis_overlay 1 1 (fun _ _ => 10) (fun _ _ => 60)
          (fun _ _ => 20) (fun _ _ => 1) (fun _ _ => 2) (fun _ _ => 3)
          ⟨5, 5, 0, 0, 0, 0⟩ p =
        (addWeightedChan ((fun _ _ => 1 : ℕ → ℕ → ℕ) p.1 p.2) 0,
         addWeightedChan ((fun _ _ => 2 : ℕ → ℕ → ℕ) p.1 p.2) 165,
         addWeightedChan ((fun _ _ => 3 : ℕ → ℕ → ℕ) p.1 p.2) 255)) ∧
     (∀ p, p ∉ overlayRedSet 1 1 (fun _ _ => 10) (fun _ _ => 60) (fun _ _ => 20)
        ⟨5, 5, 0, 0, 0, 0⟩ →
      p ∉ overlayOrangeSet 1 1 (fun _ _ => 10) (fun _ _ => 60) (fun _ _ => 20)
        ⟨5, 5, 0, 0, 0, 0⟩ →
      create_enhanced_analysis_overlay 1 1 (fun _ _ => 10) (fun _ _ => 60)
          (fun _ _ => 20) (fun _ _ => 1) (fun _ _ => 2) (fun _ _ => 3)
          ⟨5, 5, 0, 0, 0, 0⟩ p =
        ((addWeightedChan ((fun _ _ => 1 : ℕ → ℕ → ℕ) p.1 p.2)
            ((fun _ _ => 1 : ℕ → ℕ → ℕ) p.1 p.2)),
         (addWeightedChan ((fun _ _ => 2 : ℕ → ℕ → ℕ) p.1 p.2)
            ((fun _ _ => 2 : ℕ → ℕ → ℕ) p.1 p.2)),
         (addWeightedChan ((fun _ _ => 3 : ℕ → ℕ → ℕ) p.1 p.2)
            ((fun _ _ => 3 : ℕ → ℕ → ℕ) p.1 p.2))))) :=
  ⟨by decide,
   c7_overlay_amended 1 1 (fun _ _ => 10) (fun _ _ => 60) (fun _ _ => 20)
     (fun _ _ => 10) (fun _ _ => 100) (fun _ _ => 10) (fun _ _ => 20)
     (fun _ _ => 1) (fun _ _ => 2) (fun _ _ => 3) ⟨5, 5, 0, 0, 0, 0⟩
     (by decide)⟩

end FruitDetection
